import Mathlib

/-!
Verification of the FBX binary exporter (`io_scene_fbx/export_fbx_bin.py`).

The Python source is shallowly embedded below.  Conventions used throughout:

* Python floats are modelled as exact unnormalized rationals; decimal
  literals keep their mathematical value.  `math.pi` (a binary64 constant) is
  modelled by the exact rational value of that binary64 constant.  Most
  verified behavior is insensitive to float rounding; for rounding-sensitive
  claims an IEEE-754 binary64 layer (`roundF64`, `f64mul`, `f64div`,
  `f64lit`) evaluates the same source expressions under round-to-nearest-even
  double arithmetic.
* Python `bytes` and `str` literals are both modelled as Lean `String`s, with
  distinct constructors in the value type so that `b"x" == "x"` is `False`,
  as in Python.
* Python exceptions (KeyError, TypeError, ValueError) are modelled with
  `Except String`: a raised exception aborts the computation.  The mutated
  tree is unobservable after an uncaught exception in the exporter, so the
  error value carries no partial state.
* Python dicts are modelled as insertion-ordered association lists
  (Python 3.7+ dict semantics, on which the source relies for stable output
  ordering).
-/

/-! ### Python values

The exporter passes property values around as plain Python objects: `None`,
booleans, ints, floats, (byte)strings and flat tuples of scalars.  The code
never builds nested tuples, so tuples of scalars suffice as the value domain.

A Python float is modelled as an exact (unnormalized) fraction of integers:
the exporter's arithmetic on floats is `+`, `-`, `*`, `/` on values whose
denominators never vanish, for which this is the exact-rational semantics.
(`PyFloat.toRat` gives the represented rational value.)
-/

/-- An exact unnormalized fraction, modelling a Python float value. -/
structure PyFloat where
  num : ℤ
  den : ℤ
deriving DecidableEq, Repr

instance : Mul PyFloat := ⟨fun a b => ⟨a.num * b.num, a.den * b.den⟩⟩

instance : Div PyFloat := ⟨fun a b => ⟨a.num * b.den, a.den * b.num⟩⟩

instance : Add PyFloat := ⟨fun a b => ⟨a.num * b.den + b.num * a.den, a.den * b.den⟩⟩

instance : Neg PyFloat := ⟨fun a => ⟨-a.num, a.den⟩⟩

instance : Sub PyFloat := ⟨fun a b => a + -b⟩

instance (n : ℕ) : OfNat PyFloat n := ⟨⟨n, 1⟩⟩

instance : OfScientific PyFloat :=
  ⟨fun m b e => if b then ⟨m, ((10 ^ e : ℕ) : ℤ)⟩ else ⟨(m * 10 ^ e : ℕ), 1⟩⟩

/-- The represented rational value. -/
def PyFloat.toRat (a : PyFloat) : ℚ := (a.num : ℚ) / (a.den : ℚ)

/-- The float value of an integer (Python's int-to-float coercion). -/
def PyFloat.ofInt (i : ℤ) : PyFloat := ⟨i, 1⟩

/-- A scalar Python value handled by the exporter. -/
inductive PScalar where
  | none
  | bool (b : Bool)
  | int (i : ℤ)
  | float (q : PyFloat)
  | str (s : String)
  | bytes (s : String)
deriving DecidableEq, Repr

/-- A Python value handled by the exporter: a scalar or a flat tuple. -/
inductive PyVal where
  | scalar (s : PScalar)
  | tuple (l : List PScalar)
deriving DecidableEq, Repr

/-- Numeric view of a Python scalar, as an exact fraction (`bool` is an `int`
subclass in Python). -/
def PScalar.numPair : PScalar → Option (ℤ × ℤ)
  | .bool b => some (if b then 1 else 0, 1)
  | .int i => some (i, 1)
  | .float q => some (q.num, q.den)
  | _ => Option.none

/-- Python `==` on scalars: numeric types compare by value across
`bool`/`int`/`float` (fraction equality by cross-multiplication); other types
compare only with themselves. -/
def pyScalarEq (a b : PScalar) : Bool :=
  match a.numPair, b.numPair with
  | some x, some y => x.1 * y.2 == y.1 * x.2
  | _, _ =>
    match a, b with
    | .none, .none => true
    | .str s, .str t => s == t
    | .bytes s, .bytes t => s == t
    | _, _ => false

/-- Python `==` on the values handled by the exporter: scalar/tuple values of
different shapes compare unequal, tuples compare element-wise. -/
def pyEq : PyVal → PyVal → Bool
  | .scalar a, .scalar b => pyScalarEq a b
  | .tuple xs, .tuple ys =>
    xs.length == ys.length && (xs.zip ys).all fun p => pyScalarEq p.1 p.2
  | _, _ => false

/-- Python `tuple(value)`: succeeds on tuples (identity), strings (tuple of
one-character strings) and bytes (tuple of ints); raises `TypeError` on the
non-iterable scalars. -/
def pyTuple : PyVal → Except String (List PScalar)
  | .tuple l => .ok l
  | .scalar (.str s) => .ok (s.toList.map fun c => .str (String.mk [c]))
  | .scalar (.bytes s) => .ok (s.toList.map fun c => .int c.toNat)
  | .scalar _ => .error "TypeError: object is not iterable"

/-! ### The element tree

Modelled from the spec: `encode_bin.FBXElem` is repository code that is not
under `src/` (the binary encoder module).  Per the spec's data model, an
element carries a byte-string tag, an ordered payload of typed scalar values
(each appended by one `add_*` call), and an ordered list of child elements.
The payload records the `add_*` call verbatim, i.e. which typed encoder was
invoked and with which value; the binary rendering of payload items is the
encoder's business and out of scope here.
-/

/-- The typed payload-appending methods of `encode_bin.FBXElem`. -/
inductive EncName where
  | add_bool
  | add_int16
  | add_int32
  | add_int64
  | add_float32
  | add_float64
  | add_bytes
  | add_string
  | add_string_unicode
deriving DecidableEq, Repr

/-- One payload item: which typed `add_*` method was called, with which value. -/
abbrev PayloadItem := EncName × PyVal

/-- Modelled from the spec: the element-tree node of `encode_bin.FBXElem`
(name, ordered typed payload, ordered children). -/
inductive Elem where
  | mk (name : String) (payload : List PayloadItem) (elems : List Elem)
deriving Repr

/-- The element's byte-string tag. -/
def Elem.name : Elem → String
  | .mk n _ _ => n

/-- The element's ordered typed payload. -/
def Elem.payload : Elem → List PayloadItem
  | .mk _ p _ => p

/-- The element's ordered children. -/
def Elem.elems : Elem → List Elem
  | .mk _ _ c => c

/-- Python `elem_empty`: a fresh element with the given name (the Python helper also
appends it to a parent; appending is done explicitly by each caller here). -/
def elem_empty (name : String) : Elem := ⟨name, [], []⟩

/-- Append a child element (the `elem.elems.append(sub_elem)` effect). -/
def Elem.appendChild : Elem → Elem → Elem
  | .mk n p c, child => .mk n p (c ++ [child])

/-- Python `_elem_data_single`: a fresh element holding exactly one payload value. -/
def elem_data_single (name : String) (enc : EncName) (v : PyVal) : Elem :=
  ⟨name, [(enc, v)], []⟩

def elem_data_single_bool (name : String) (b : Bool) : Elem :=
  elem_data_single name .add_bool (.scalar (.bool b))

def elem_data_single_int32 (name : String) (i : ℤ) : Elem :=
  elem_data_single name .add_int32 (.scalar (.int i))

def elem_data_single_int64 (name : String) (i : ℤ) : Elem :=
  elem_data_single name .add_int64 (.scalar (.int i))

def elem_data_single_float64 (name : String) (q : PyFloat) : Elem :=
  elem_data_single name .add_float64 (.scalar (.float q))

def elem_data_single_bytes (name : String) (s : String) : Elem :=
  elem_data_single name .add_bytes (.scalar (.bytes s))

def elem_data_single_string (name : String) (s : String) : Elem :=
  elem_data_single name .add_string (.scalar (.bytes s))

def elem_data_single_string_unicode (name : String) (s : String) : Elem :=
  elem_data_single name .add_string_unicode (.scalar (.str s))

/-- Python `elem_data_vec_float64`: one `add_float64` payload item per component. -/
def elem_data_vec_float64 (name : String) (v : List PyFloat) : Elem :=
  ⟨name, v.map fun q => (.add_float64, .scalar (.float q)), []⟩

/-! ### Misc utilities: units -/

/-- The binary64 value of CPython's `math.pi`. -/
def pyFloatPi : PyFloat := ⟨884279719003555, 281474976710656⟩

/-- The `UNITS` table (`{name: amount of that unit in one reference unit}`).
Lookup of an unknown unit raises `KeyError` (modelled by `Option.none`). -/
def UNITS : String → Option PyFloat
  | "meter" => some 1.0
  | "kilometer" => some 0.001
  | "millimeter" => some 1000.0
  | "foot" => some (1.0 / 0.3048)
  | "inch" => some (1.0 / 0.0254)
  | "turn" => some 1.0
  | "degree" => some 360.0
  | "radian" => some (pyFloatPi * 2.0)
  | _ => Option.none

/-- Python `units_convert` on a scalar value.  (The Python function also accepts an
iterable and then returns a generator mapping each component; the exporter's
call sites in the claims use the scalar branch.)  The destination unit is
looked up first, as in `UNITS[u_to] / UNITS[u_from]`. -/
def units_convert (val : PyFloat) (u_from u_to : String) : Option PyFloat := do
  let t ← UNITS u_to
  let f ← UNITS u_from
  pure (val * (t / f))

/-- Python `math.degrees`, with the binary64 π constant. -/
def pyDegrees (q : PyFloat) : PyFloat := q * 180 / pyFloatPi

/-! ### IEEE-754 binary64 semantics

The layer below evaluates float expressions the way CPython actually does:
every literal and every arithmetic result is rounded to the nearest binary64
value (ties to even).  A finite positive double is `m * 2^e` with
`2^52 <= m < 2^53`; `roundF64` normalizes the exact rational into that
binade and rounds the 53-bit significand.  Exponent bounds (overflow,
subnormals) are not modelled: every value in the exporter is comfortably
inside the normal range. -/

/-- Kernel-computable power of two. -/
def pow2 : ℕ → ℤ
  | 0 => 1
  | k + 1 => 2 * pow2 k

/-- Scale the positive fraction `n / d` by powers of two (tracked in `e`)
until it lies in `[2^52, 2^53)`; the budget is ample for the full binary64
exponent range. -/
def f64norm : ℕ → ℤ → ℤ → ℤ → ℤ × ℤ × ℤ
  | 0, n, d, e => (n, d, e)
  | fuel + 1, n, d, e =>
    if n < 4503599627370496 * d then f64norm fuel (2 * n) d (e - 1)
    else if 9007199254740992 * d ≤ n then f64norm fuel n (2 * d) (e + 1)
    else (n, d, e)

/-- Round an exact rational to the nearest IEEE-754 binary64 value
(round-to-nearest, ties to even), returned as its exact rational value. -/
def roundF64 (x : PyFloat) : PyFloat :=
  if x.num = 0 then ⟨0, 1⟩
  else
    let s : ℤ := if (x.num < 0) = (x.den < 0) then 1 else -1
    let r := f64norm 4400 (x.num.natAbs : ℤ) (x.den.natAbs : ℤ) 0
    let n := r.1
    let d := r.2.1
    let e := r.2.2
    let i := n / d
    let rem := n % d
    let m : ℤ :=
      if 2 * rem < d then i
      else if d < 2 * rem then i + 1
      else if i % 2 = 0 then i else i + 1
    if 0 ≤ e then ⟨s * m * pow2 e.toNat, 1⟩ else ⟨s * m, pow2 (-e).toNat⟩

/-- The binary64 value of a decimal float literal. -/
def f64lit (x : PyFloat) : PyFloat := roundF64 x

/-- Binary64 multiplication: the exact product, correctly rounded. -/
def f64mul (a b : PyFloat) : PyFloat := roundF64 (a * b)

/-- Binary64 division: the exact quotient, correctly rounded. -/
def f64div (a b : PyFloat) : PyFloat := roundF64 (a / b)

/-- The `UNITS` table under binary64 semantics: each entry is the double the
Python interpreter stores when the module-level dict is built (`1.0/0.3048`,
`1.0/0.0254` and `math.pi * 2.0` are evaluated in float arithmetic). -/
def UNITS_f64 : String → Option PyFloat
  | "meter" => some (f64lit 1.0)
  | "kilometer" => some (f64lit 0.001)
  | "millimeter" => some (f64lit 1000.0)
  | "foot" => some (f64div (f64lit 1.0) (f64lit 0.3048))
  | "inch" => some (f64div (f64lit 1.0) (f64lit 0.0254))
  | "turn" => some (f64lit 1.0)
  | "degree" => some (f64lit 360.0)
  | "radian" => some (f64mul pyFloatPi (f64lit 2.0))
  | _ => Option.none

/-- Python `units_convert` on a scalar float, under binary64 semantics:
`conv = UNITS[u_to] / UNITS[u_from]` then `val * conv`, each operation
correctly rounded. -/
def units_convert_f64 (val : PyFloat) (u_from u_to : String) :
    Option PyFloat := do
  let t ← UNITS_f64 u_to
  let f ← UNITS_f64 u_from
  pure (f64mul val (f64div t f))

/-! ### UIDs

`_keys_to_uids` / `_uids_to_keys` are module-level dicts filled during one
export run (`UID` itself is a mere `int` subclass).  The registry state is
modelled explicitly: the forward map as an association list and the set of
allocated UIDs (the key set of `_uids_to_keys`, which is all the probe loop
inspects).  Keys are an arbitrary hashable type `κ` equipped with Python's
`hash` (an arbitrary machine integer) and the `isinstance(key, int)` view.
-/

/-- The registry state: `_keys_to_uids` (new entries are consed in front) and
the key set of `_uids_to_keys`. -/
structure UIDState (κ : Type) where
  keysToUids : List (κ × ℤ)
  usedUids : Finset ℤ
deriving DecidableEq

/-- Association-list lookup (Python `dict.get`). -/
def alookup {α β : Type} [DecidableEq α] : List (α × β) → α → Option β
  | [], _ => Option.none
  | (k, v) :: rest, a => if k = a then some v else alookup rest a

/-- Termination measure of the probe loop: how many allocated UIDs lie in the
probing direction (inclusive). -/
def probeMeasure (uids : Finset ℤ) (up : Bool) (uid : ℤ) : ℕ :=
  (uids.filter fun x => if up then uid ≤ x else x ≤ uid).card

/-- The collision-probing `while` loop of `_key_to_uid`, with an explicit
iteration budget making the recursion structural: while `uid` is taken, step
by `inc` (`+1` below `2^63`, `-1` above) and — as literally written in the
source — raise `ValueError` when `0 > uid >= 2**64`.  (That chained Python
comparison means `0 > uid and uid >= 2**64`.)  The budget case is
unreachable for the budget chosen by `uid_probe` (`uid_probe_fuel_ok`
below), so this is exactly the Python loop. -/
def uid_probe_fuel (uids : Finset ℤ) (up : Bool) : ℕ → ℤ → Except String ℤ
  | 0, _ => .error "unreachable: probe iteration budget exhausted"
  | fuel + 1, uid =>
    if uid ∈ uids then
      let uid' := uid + (if up then 1 else -1)
      if 0 > uid' ∧ uid' ≥ 2 ^ 64 then
        .error "ValueError: Unable to generate an UID for key"
      else
        uid_probe_fuel uids up fuel uid'
    else
      .ok uid

/-- The probe loop: the iteration budget `probeMeasure + 1` always suffices
(each iteration leaves the not-yet-passed part of `uids` strictly smaller, see
`probeMeasure_lt`). -/
def uid_probe (uids : Finset ℤ) (up : Bool) (uid : ℤ) : Except String ℤ :=
  uid_probe_fuel uids up (probeMeasure uids up uid + 1) uid

/-- Python `_key_to_uid(uids, key)`: an in-range int key is used verbatim, any other
key is hashed; the result is probed until unused. -/
def _key_to_uid {κ : Type} (pyhash : κ → ℤ) (asInt : κ → Option ℤ)
    (uids : Finset ℤ) (key : κ) : Except String ℤ :=
  let uid : ℤ :=
    match asInt key with
    | some i => if 0 ≤ i ∧ i < 2 ^ 64 then i else pyhash key
    | Option.none => pyhash key
  uid_probe uids (decide (uid < 2 ^ 63)) uid

/-- Python `get_fbxuid_from_key(key)`: memoized UID lookup; a fresh key is assigned a
probed UID and recorded in both maps. -/
def get_fbxuid_from_key {κ : Type} [DecidableEq κ] (pyhash : κ → ℤ)
    (asInt : κ → Option ℤ) (st : UIDState κ) (key : κ) :
    Except String (ℤ × UIDState κ) :=
  match alookup st.keysToUids key with
  | some uid => .ok (uid, st)
  | Option.none =>
    match _key_to_uid pyhash asInt st.usedUids key with
    | .error e => .error e
    | .ok uid => .ok (uid, ⟨(key, uid) :: st.keysToUids, insert uid st.usedUids⟩)

/-- Submit a sequence of keys to the registry, collecting the returned UIDs. -/
def runKeys {κ : Type} [DecidableEq κ] (pyhash : κ → ℤ) (asInt : κ → Option ℤ) :
    UIDState κ → List κ → Except String (List ℤ × UIDState κ)
  | st, [] => .ok ([], st)
  | st, k :: rest => do
    let (u, st') ← get_fbxuid_from_key pyhash asInt st k
    let (us, st'') ← runKeys pyhash asInt st' rest
    pure (u :: us, st'')

/-- Python `get_blenderID_key`, over the (rna-type name, name) view of a datablock. -/
def get_blenderID_key (rna_type_name name : String) : String :=
  "B" ++ rna_type_name ++ "::" ++ name

/-! ### Standard FBXProperties70 property generators -/

/-- One entry of `FBX_PROPERTIES_DEFINITIONS`: the three FBX tag strings and
the encoder-name list (`ptype[3:]` of the Python flat tuple; `len(ptype)` is
`3 + encoders.length`). -/
structure PropDef where
  t1 : String
  t2 : String
  t3 : String
  encoders : List EncName
deriving DecidableEq, Repr

/-- The closed `FBX_PROPERTIES_DEFINITIONS` catalog. -/
def FBX_PROPERTIES_DEFINITIONS : String → Option PropDef
  | "p_bool" => some ⟨"bool", "", "", [.add_bool]⟩
  | "p_integer" => some ⟨"int", "Integer", "", [.add_int32]⟩
  | "p_enum" => some ⟨"enum", "", "", [.add_int32]⟩
  | "p_number" => some ⟨"double", "Number", "", [.add_float64]⟩
  | "p_visibility" => some ⟨"Visibility", "", "A+", [.add_float64]⟩
  | "p_fov" => some ⟨"FieldOfView", "", "A+", [.add_float64]⟩
  | "p_fov_x" => some ⟨"FieldOfViewX", "", "A+", [.add_float64]⟩
  | "p_fov_y" => some ⟨"FieldOfViewY", "", "A+", [.add_float64]⟩
  | "p_vector_3d" =>
    some ⟨"Vector3D", "Vector", "", [.add_float64, .add_float64, .add_float64]⟩
  | "p_lcl_translation" =>
    some ⟨"Lcl Translation", "", "A+", [.add_float64, .add_float64, .add_float64]⟩
  | "p_lcl_rotation" =>
    some ⟨"Lcl Rotation", "", "A+", [.add_float64, .add_float64, .add_float64]⟩
  | "p_lcl_scaling" =>
    some ⟨"Lcl Scaling", "", "A+", [.add_float64, .add_float64, .add_float64]⟩
  | "p_color_rgb" =>
    some ⟨"ColorRGB", "Color", "", [.add_float64, .add_float64, .add_float64]⟩
  | "p_string" => some ⟨"KString", "", "", [.add_string_unicode]⟩
  | "p_string_url" => some ⟨"KString", "Url", "", [.add_string_unicode]⟩
  | "p_timestamp" => some ⟨"KTime", "Time", "", [.add_int64]⟩
  | "p_object" => some ⟨"object", "", "", []⟩
  | _ => Option.none

/-- Python `_elem_props_set(elem, ptype, name, value)`: appends to `elem` one `P`
child whose payload is the property name, the three tag strings, then the
encoded value(s): the scalar `value` for a single encoder, or — when several
encoders are declared — one value per `zip(ptype[3:], value)` pair (`zip`
stops at the shorter sequence; a non-iterable `value` raises `TypeError`). -/
def _elem_props_set (elem : Elem) (ptype : PropDef) (name : String)
    (value : PyVal) : Except String Elem := do
  let base : List PayloadItem :=
    [(.add_string, .scalar (.bytes name)),
     (.add_string, .scalar (.bytes ptype.t1)),
     (.add_string, .scalar (.bytes ptype.t2)),
     (.add_string, .scalar (.bytes ptype.t3))]
  match ptype.encoders with
  | [enc] => pure (elem.appendChild ⟨"P", base ++ [(enc, value)], []⟩)
  | [] => pure (elem.appendChild ⟨"P", base, []⟩)
  | encs => do
    let comps ← pyTuple value
    let vals := (encs.zip comps).map fun p => (p.1, PyVal.scalar p.2)
    pure (elem.appendChild ⟨"P", base ++ vals, []⟩)

/-- Python `elem_props_set`: catalog lookup (`KeyError` on an unknown kind name)
followed by the unconditional writer. -/
def elem_props_set (elem : Elem) (ptype_name : String) (name : String)
    (value : PyVal) : Except String Elem := do
  match FBX_PROPERTIES_DEFINITIONS ptype_name with
  | some ptype => _elem_props_set elem ptype name value
  | Option.none => .error "KeyError: FBX_PROPERTIES_DEFINITIONS"

/-- An FBX template (`FBXTemplate` namedtuple): class tag, property-subtype
tag, default property map `{name: (value, kind name)}`, usage count. -/
structure FBXTemplate where
  type_name : String
  prop_type_name : String
  properties : List (String × (PyVal × String))
  nbr_users : ℤ
deriving Repr

/-- Python `elem_props_template_set(template, elem, ptype_name, name, value)`:
look the name up in the template; skip the write when the stored default has
the same kind name and compares equal (`==` for single-encoder kinds,
`tuple(...) ==`-wise for multi-encoder kinds, evaluated left to right);
otherwise write unconditionally.  A kind with fewer than four tuple items in
the catalog (`p_object`) matches neither `len(ptype) == 4` nor
`len(ptype) > 4` and is therefore always written. -/
def elem_props_template_set (template : FBXTemplate) (elem : Elem)
    (ptype_name : String) (name : String) (value : PyVal) :
    Except String Elem := do
  match FBX_PROPERTIES_DEFINITIONS ptype_name with
  | Option.none => .error "KeyError: FBX_PROPERTIES_DEFINITIONS"
  | some ptype =>
    match alookup template.properties name with
    | Option.none => _elem_props_set elem ptype name value
    | some (tmpl_val, tmpl_ptype) =>
      if ptype.encoders.length = 1 then
        if pyEq tmpl_val value && (tmpl_ptype == ptype_name) then
          pure elem
        else
          _elem_props_set elem ptype name value
      else if 1 < ptype.encoders.length then do
        let tcomps ← pyTuple tmpl_val
        let vcomps ← pyTuple value
        if pyEq (.tuple tcomps) (.tuple vcomps) && (tmpl_ptype == ptype_name) then
          pure elem
        else
          _elem_props_set elem ptype name value
      else
        _elem_props_set elem ptype name value

/-! ### Templates -/

/-- Shorthand: a Python float value. -/
def pF (q : PyFloat) : PyVal := .scalar (.float q)

/-- Shorthand: a Python bool value. -/
def pB (b : Bool) : PyVal := .scalar (.bool b)

/-- Shorthand: a Python int value. -/
def pI (i : ℤ) : PyVal := .scalar (.int i)

/-- Shorthand: a Python str value. -/
def pS (s : String) : PyVal := .scalar (.str s)

/-- Shorthand: Python `None`. -/
def pNone : PyVal := .scalar .none

/-- Shorthand: a Python 3-tuple of floats. -/
def p3 (a b c : PyFloat) : PyVal := .tuple [.float a, .float b, .float c]

/-- Python `dict` assignment `d[k] = v`: overwrite in place, else append. -/
def dictInsert {α β : Type} [DecidableEq α] (l : List (α × β)) (k : α) (v : β) :
    List (α × β) :=
  if (alookup l k).isSome then
    l.map fun p => if p.1 = k then (k, v) else p
  else
    l ++ [(k, v)]

/-- Python `dict.update`: apply every override in order. -/
def dictUpdate {α β : Type} [DecidableEq α] (base overrides : List (α × β)) :
    List (α × β) :=
  overrides.foldl (fun acc p => dictInsert acc p.1 p.2) base

/-- Python `fbx_template_generate(root, fbx_template)`: appends to `root` one block
whose tag is `ObjectType` and whose payload is always the byte string
`b"Model"` (the template's own `type_name` is not consulted); children are
the `Count` element and, when the template has properties, a
`PropertyTemplate` block holding a `Properties70` container with one `P`
element per default. -/
def fbx_template_generate (root : Elem) (fbx_template : FBXTemplate) :
    Except String Elem := do
  let template := elem_data_single_string "ObjectType" "Model"
  let template := template.appendChild
    (elem_data_single_int32 "Count" fbx_template.nbr_users)
  if fbx_template.properties.isEmpty then
    pure (root.appendChild template)
  else do
    let props ← fbx_template.properties.foldlM
      (fun pr (nv : String × (PyVal × String)) =>
        elem_props_set pr nv.2.2 nv.1 nv.2.1)
      (elem_empty "Properties70")
    let elem :=
      (elem_data_single_string "PropertyTemplate" fbx_template.prop_type_name).appendChild
        props
    pure (root.appendChild (template.appendChild elem))

def fbx_template_def_globalsettings
    (override_defaults : List (String × (PyVal × String)) := [])
    (nbr_users : ℤ := 0) : FBXTemplate :=
  ⟨"GlobalSettings", "", override_defaults, nbr_users⟩

def fbx_template_def_model
    (override_defaults : List (String × (PyVal × String)) := [])
    (nbr_users : ℤ := 0) : FBXTemplate :=
  let props : List (String × (PyVal × String)) := [
    ("QuaternionInterpolate", (pB false, "p_bool")),
    ("RotationOffset", (p3 0.0 0.0 0.0, "p_vector_3d")),
    ("RotationPivot", (p3 0.0 0.0 0.0, "p_vector_3d")),
    ("ScalingOffset", (p3 0.0 0.0 0.0, "p_vector_3d")),
    ("ScalingPivot", (p3 0.0 0.0 0.0, "p_vector_3d")),
    ("TranslationActive", (pB false, "p_bool")),
    ("TranslationMin", (p3 0.0 0.0 0.0, "p_vector_3d")),
    ("TranslationMax", (p3 0.0 0.0 0.0, "p_vector_3d")),
    ("TranslationMinX", (pB false, "p_bool")),
    ("TranslationMinY", (pB false, "p_bool")),
    ("TranslationMinZ", (pB false, "p_bool")),
    ("TranslationMaxX", (pB false, "p_bool")),
    ("TranslationMaxY", (pB false, "p_bool")),
    ("TranslationMaxZ", (pB false, "p_bool")),
    ("RotationOrder", (pI 0, "p_enum")),
    ("RotationSpaceForLimitOnly", (pB false, "p_bool")),
    ("RotationStiffnessX", (pF 0.0, "p_number")),
    ("RotationStiffnessY", (pF 0.0, "p_number")),
    ("RotationStiffnessZ", (pF 0.0, "p_number")),
    ("AxisLen", (pF 10.0, "p_number")),
    ("PreRotation", (p3 0.0 0.0 0.0, "p_vector_3d")),
    ("PostRotation", (p3 0.0 0.0 0.0, "p_vector_3d")),
    ("RotationActive", (pB false, "p_bool")),
    ("RotationMin", (p3 0.0 0.0 0.0, "p_vector_3d")),
    ("RotationMax", (p3 0.0 0.0 0.0, "p_vector_3d")),
    ("RotationMinX", (pB false, "p_bool")),
    ("RotationMinY", (pB false, "p_bool")),
    ("RotationMinZ", (pB false, "p_bool")),
    ("RotationMaxX", (pB false, "p_bool")),
    ("RotationMaxY", (pB false, "p_bool")),
    ("RotationMaxZ", (pB false, "p_bool")),
    ("InheritType", (pI 0, "p_enum")),
    ("ScalingActive", (pB false, "p_bool")),
    ("ScalingMin", (p3 1.0 1.0 1.0, "p_vector_3d")),
    ("ScalingMax", (p3 1.0 1.0 1.0, "p_vector_3d")),
    ("ScalingMinX", (pB false, "p_bool")),
    ("ScalingMinY", (pB false, "p_bool")),
    ("ScalingMinZ", (pB false, "p_bool")),
    ("ScalingMaxX", (pB false, "p_bool")),
    ("ScalingMaxY", (pB false, "p_bool")),
    ("ScalingMaxZ", (pB false, "p_bool")),
    ("GeometricTranslation", (p3 0.0 0.0 0.0, "p_vector_3d")),
    ("GeometricRotation", (p3 0.0 0.0 0.0, "p_vector_3d")),
    ("GeometricScaling", (p3 1.0 1.0 1.0, "p_vector_3d")),
    ("MinDampRangeX", (pF 0.0, "p_number")),
    ("MinDampRangeY", (pF 0.0, "p_number")),
    ("MinDampRangeZ", (pF 0.0, "p_number")),
    ("MaxDampRangeX", (pF 0.0, "p_number")),
    ("MaxDampRangeY", (pF 0.0, "p_number")),
    ("MaxDampRangeZ", (pF 0.0, "p_number")),
    ("MinDampStrengthX", (pF 0.0, "p_number")),
    ("MinDampStrengthY", (pF 0.0, "p_number")),
    ("MinDampStrengthZ", (pF 0.0, "p_number")),
    ("MaxDampStrengthX", (pF 0.0, "p_number")),
    ("MaxDampStrengthY", (pF 0.0, "p_number")),
    ("MaxDampStrengthZ", (pF 0.0, "p_number")),
    ("PreferedAngleX", (pF 0.0, "p_number")),
    ("PreferedAngleY", (pF 0.0, "p_number")),
    ("PreferedAngleZ", (pF 0.0, "p_number")),
    ("LookAtProperty", (pNone, "p_object")),
    ("UpVectorProperty", (pNone, "p_object")),
    ("Show", (pB true, "p_bool")),
    ("NegativePercentShapeSupport", (pB true, "p_bool")),
    ("DefaultAttributeIndex", (pI (-1), "p_integer")),
    ("Freeze", (pB false, "p_bool")),
    ("LODBox", (pB false, "p_bool")),
    ("Lcl Translation", (p3 0.0 0.0 0.0, "p_lcl_translation")),
    ("Lcl Rotation", (p3 0.0 0.0 0.0, "p_lcl_rotation")),
    ("Lcl Scaling", (p3 1.0 1.0 1.0, "p_lcl_scaling")),
    ("Visibility", (pF 1.0, "p_visibility"))]
  ⟨"Model", "KFbxNode", dictUpdate props override_defaults, nbr_users⟩

def fbx_template_def_nodeattribute_camera
    (override_defaults : List (String × (PyVal × String)) := [])
    (nbr_users : ℤ := 0) : FBXTemplate :=
  ⟨"NodeAttribute", "KFbxCamera", override_defaults, nbr_users⟩

def fbx_template_def_nodeattribute_cameraswitcher
    (override_defaults : List (String × (PyVal × String)) := [])
    (nbr_users : ℤ := 0) : FBXTemplate :=
  let props : List (String × (PyVal × String)) := [
    ("Color", (p3 0.8 0.8 0.8, "p_color_rgb")),
    ("Camera Index", (pI 1, "p_integer"))]
  ⟨"NodeAttribute", "KFbxCameraSwitcher", dictUpdate props override_defaults, nbr_users⟩

def fbx_template_def_geometry
    (override_defaults : List (String × (PyVal × String)) := [])
    (nbr_users : ℤ := 0) : FBXTemplate :=
  let props : List (String × (PyVal × String)) := [
    ("Color", (p3 0.8 0.8 0.8, "p_color_rgb")),
    ("BBoxMin", (p3 0.0 0.0 0.0, "p_vector_3d")),
    ("BBoxMax", (p3 0.0 0.0 0.0, "p_vector_3d"))]
  ⟨"Geometry", "KFbxMesh", dictUpdate props override_defaults, nbr_users⟩

/-! ### Scene stubs and the data aggregator

`bpy` and `mathutils` are external collaborators: per the spec's input
contract the host hands the exporter an ordered list of typed object stubs
(kind tag, resolved transform, per-kind data payload such as camera sensor
parameters).  Matrix decomposition (`matrix.decompose()`, `rot.to_matrix()`,
Euler conversion) is `mathutils` work, so each stub carries the decomposed
transform data that `object_tx` produces from it; the in-repository uses of
that data (the up/look-at vectors, property payloads) are embedded below.
-/

/-- A 3-vector of Python floats. -/
abbrev V3 := PyFloat × PyFloat × PyFloat

/-- A 3x3 matrix (three rows) of Python floats. -/
abbrev M3 := V3 × V3 × V3

/-- Python `matrix_rot * Vector(v)` (mathutils row-matrix application). -/
def matVec (m : M3) (v : V3) : V3 :=
  (m.1.1 * v.1 + m.1.2.1 * v.2.1 + m.1.2.2 * v.2.2,
   m.2.1.1 * v.1 + m.2.1.2.1 * v.2.1 + m.2.1.2.2 * v.2.2,
   m.2.2.1 * v.1 + m.2.2.2.1 * v.2.1 + m.2.2.2.2 * v.2.2)

/-- A datablock stub (`obj.data`): identity plus the camera-specific fields
used by the camera writer (ignored for non-camera datablocks). -/
structure BData where
  rna_name : String
  name : String
  sensor_width : PyFloat
  sensor_height : PyFloat
  shift_x : PyFloat
  shift_y : PyFloat
  angle_x : PyFloat
  angle_y : PyFloat
  lens : PyFloat
  clip_start : PyFloat
  clip_end : PyFloat
deriving DecidableEq, Repr

/-- An object stub: identity, type tag, datablock, and the decomposed
transform that `object_tx` yields for it (location, Euler rotation, scale,
rotation matrix — the matrix decomposition itself is `mathutils` work done
by the external collaborator). -/
structure BObject where
  rna_name : String
  name : String
  btype : String
  data : BData
  tx_loc : V3
  tx_rot : V3
  tx_scale : V3
  tx_rot_mat : M3
deriving DecidableEq, Repr

/-- Render settings stub. -/
structure BRender where
  resolution_x : ℤ
  resolution_y : ℤ
deriving DecidableEq, Repr

/-- Scene stub: name, ordered object list, render settings. -/
structure BScene where
  name : String
  objects : List BObject
  render : BRender
deriving DecidableEq, Repr

/-- Python `object_tx(ob, scene_data)`: the decomposed transform of the object
(`loc, rot, scale, matrix, matrix_rot`; the 4x4 `matrix` itself is omitted —
it is an opaque `mathutils` value unused by the embedded writers). -/
def object_tx (ob : BObject) : V3 × V3 × V3 × M3 :=
  (ob.tx_loc, ob.tx_rot, ob.tx_scale, ob.tx_rot_mat)

/-- Python `get_blender_camera_keys(cam)`: the camera data's key and the synthetic
switcher key. -/
def get_blender_camera_keys (cam : BData) : String × String :=
  let key := get_blenderID_key cam.rna_name cam.name
  (key, key ++ "_switcher")

/-- Python `FBX_NAME_CLASS_SEP`-joined name/class byte string. -/
def fbx_name_class (name cls : String) : String :=
  name ++ "\x00\x01" ++ cls

/-- The `FBXData` namedtuple (`global_matrix` is an opaque external
`mathutils` value, carried as a unit). -/
structure FBXData where
  templates : List (String × FBXTemplate)
  templates_users : ℤ
  global_matrix : Unit
  global_scale : PyFloat
  scene : BScene
  objects : List (BObject × String)
  data_cameras : List (BObject × (String × String))
  data_meshes : List (BData × String)
deriving Repr

/-- Python `fbx_data_from_scene(scene, object_types, ...)`: one pass over the scene,
partitioning exportable objects and deriving template user counts. -/
def fbx_data_from_scene (scene : BScene) (object_types : List String)
    (global_scale : PyFloat) : FBXData :=
  let templates0 : List (String × FBXTemplate) :=
    [("GlobalSettings", fbx_template_def_globalsettings [] 1)]
  let objects : List (BObject × String) :=
    (scene.objects.filter fun obj => obj.btype ∈ object_types).foldl
      (fun acc obj => dictInsert acc obj (get_blenderID_key obj.rna_name obj.name))
      []
  let data_cameras : List (BObject × (String × String)) :=
    (objects.filter fun p => p.1.btype = "CAMERA").foldl
      (fun acc p => dictInsert acc p.1 (get_blender_camera_keys p.1.data))
      []
  let data_meshes : List (BData × String) :=
    (objects.filter fun p => p.1.btype = "MESH").foldl
      (fun acc p => dictInsert acc p.1.data (get_blenderID_key p.1.data.rna_name p.1.data.name))
      []
  let templates1 :=
    if objects.isEmpty then templates0
    else
      templates0 ++
        [("Model", fbx_template_def_model []
            ((objects.length : ℤ) + data_cameras.length))]
  let templates2 :=
    if data_cameras.isEmpty then templates1
    else
      templates1 ++
        [("NodeAttribute::Camera",
          fbx_template_def_nodeattribute_camera [] data_cameras.length),
         ("NodeAttribute::CameraSwitcher",
          fbx_template_def_nodeattribute_cameraswitcher [] data_cameras.length)]
  let templates3 :=
    if data_meshes.isEmpty then templates2
    else
      templates2 ++ [("Geometry", fbx_template_def_geometry [] data_meshes.length)]
  let templates_users := (templates3.map fun p => p.2.nbr_users).sum
  ⟨templates3, templates_users, (), global_scale, scene, objects, data_cameras,
   data_meshes⟩

/-! ### FBX object generators: cameras -/

/-- Dictionary access that raises `KeyError` when absent. -/
def dictGet {α β : Type} [DecidableEq α] (l : List (α × β)) (k : α)
    (what : String) : Except String β :=
  match alookup l k with
  | some v => .ok v
  | Option.none => .error ("KeyError: " ++ what)

/-- Python `fbx_data_cameras_elements(root, cam_obj, scene_data)`: appends the
CameraSwitcher NodeAttribute block and then the Camera NodeAttribute block
to `root`, threading the UID registry state. -/
def fbx_data_cameras_elements (pyhash : String → ℤ) (root : Elem)
    (cam_obj : BObject) (scene_data : FBXData) (st : UIDState String) :
    Except String (Elem × UIDState String) := do
  let cam_data := cam_obj.data
  let ks ← dictGet scene_data.data_cameras cam_obj "scene_data.data_cameras"
  let cam_key := ks.1
  let cam_switcher_key := ks.2
  let r1 ← get_fbxuid_from_key pyhash (fun _ => Option.none) st cam_switcher_key
  let uid_sw := r1.1
  let st := r1.2
  let tmplS ← dictGet scene_data.templates "NodeAttribute::CameraSwitcher"
    "scene_data.templates"
  let propsS ← elem_props_template_set tmplS (elem_empty "Properties70")
    "p_integer" "Camera Index" (pI 100)
  let cam_switcher : Elem :=
    ⟨"NodeAttribute",
     [(.add_int64, pI uid_sw),
      (.add_string, .scalar (.bytes (fbx_name_class "" "NodeAttribute"))),
      (.add_string, .scalar (.bytes "CameraSwitcher"))],
     [propsS,
      elem_data_single_int32 "Version" 101,
      elem_data_single_string_unicode "Name" (cam_data.name ++ " switcher"),
      elem_data_single_int32 "CameraID" 100,
      elem_data_single_int32 "CameraName" 100,
      elem_empty "CameraIndexName"]⟩
  -- Real data now: object transform info.
  let tx := object_tx cam_obj
  let loc := tx.1
  let matrix_rot := tx.2.2.2
  let up := matVec matrix_rot (0.0, 1.0, 0.0)
  let toV := matVec matrix_rot (0.0, 0.0, -1.0)
  -- Render settings.
  let render := scene_data.scene.render
  let width := PyFloat.ofInt render.resolution_x
  let height := PyFloat.ofInt render.resolution_y
  let aspect := width / height
  -- Film width and height from mm to inches.
  let filmwidth := (units_convert cam_data.sensor_width "millimeter" "inch").getD 0
  let filmheight := (units_convert cam_data.sensor_height "millimeter" "inch").getD 0
  let filmaspect := filmwidth / filmheight
  -- Film offset.
  let offsetx := filmwidth * cam_data.shift_x
  let offsety := filmaspect * filmheight * cam_data.shift_y
  let r2 ← get_fbxuid_from_key pyhash (fun _ => Option.none) st cam_key
  let uid_cam := r2.1
  let st := r2.2
  let tmplC ← dictGet scene_data.templates "NodeAttribute::Camera"
    "scene_data.templates"
  let p := elem_empty "Properties70"
  let p ← elem_props_template_set tmplC p "p_vector_3d" "Position"
    (p3 loc.1 loc.2.1 loc.2.2)
  let p ← elem_props_template_set tmplC p "p_vector_3d" "UpVector"
    (p3 up.1 up.2.1 up.2.2)
  let p ← elem_props_template_set tmplC p "p_vector_3d" "InterestPosition"
    (p3 toV.1 toV.2.1 toV.2.2)
  let p ← elem_props_template_set tmplC p "p_color_rgb" "BackgroundColor"
    (p3 0.0 0.0 0.0)
  let p ← elem_props_template_set tmplC p "p_bool" "DisplayTurnTableIcon" (pB true)
  let p ← elem_props_template_set tmplC p "p_number" "FilmWidth" (pF filmwidth)
  let p ← elem_props_template_set tmplC p "p_number" "FilmHeight" (pF filmheight)
  let p ← elem_props_template_set tmplC p "p_number" "FilmAspectRatio" (pF filmaspect)
  let p ← elem_props_template_set tmplC p "p_number" "FilmOffsetX" (pF offsetx)
  let p ← elem_props_template_set tmplC p "p_number" "FilmOffsetY" (pF offsety)
  let p ← elem_props_template_set tmplC p "p_enum" "ApertureMode" (pI 3)
  let p ← elem_props_template_set tmplC p "p_enum" "GateFit" (pI 2)
  let p ← elem_props_template_set tmplC p "p_fov" "FieldOfView"
    (pF (pyDegrees cam_data.angle_x))
  let p ← elem_props_template_set tmplC p "p_fov_x" "FieldOfViewX"
    (pF (pyDegrees cam_data.angle_x))
  let p ← elem_props_template_set tmplC p "p_fov_y" "FieldOfViewY"
    (pF (pyDegrees cam_data.angle_y))
  let p ← elem_props_template_set tmplC p "p_number" "FocalLength" (pF cam_data.lens)
  let p ← elem_props_template_set tmplC p "p_number" "SafeAreaAspectRatio" (pF aspect)
  let p ← elem_props_template_set tmplC p "p_number" "NearPlane"
    (pF (cam_data.clip_start * scene_data.global_scale))
  let p ← elem_props_template_set tmplC p "p_number" "FarPlane"
    (pF (cam_data.clip_end * scene_data.global_scale))
  let p ← elem_props_template_set tmplC p "p_enum" "BackPlaneDistanceMode" (pI 1)
  let p ← elem_props_template_set tmplC p "p_number" "BackPlaneDistance"
    (pF (cam_data.clip_end * scene_data.global_scale))
  let cam : Elem :=
    ⟨"NodeAttribute",
     [(.add_int64, pI uid_cam),
      (.add_string, .scalar (.bytes (fbx_name_class "" "NodeAttribute"))),
      (.add_string, .scalar (.bytes "Camera"))],
     [p,
      elem_data_single_string "TypeFlags" "Camera",
      elem_data_single_int32 "GeometryVersion" 124,
      elem_data_vec_float64 "Position" [loc.1, loc.2.1, loc.2.2],
      elem_data_vec_float64 "Up" [up.1, up.2.1, up.2.2],
      elem_data_vec_float64 "LookAt" [toV.1, toV.2.1, toV.2.2],
      elem_data_single_int32 "ShowInfoOnMoving" 1,
      elem_data_single_int32 "ShowAudio" 0,
      elem_data_vec_float64 "AudioColor" [0.0, 1.0, 0.0],
      elem_data_single_float64 "CameraOrthoZoom" 1.0]⟩
  pure ((root.appendChild cam_switcher).appendChild cam, st)

/-! ### Top-level FBX element generators -/

/-- Format-version constants. -/
def FBX_VERSION : ℤ := 7300

/-- Header-extension version constant. -/
def FBX_HEADER_VERSION : ℤ := 1003

/-- Templates version constant. -/
def FBX_TEMPLATES_VERSION : ℤ := 100

/-- A `datetime.datetime` stub (the caller-suppliable timestamp). -/
structure PyDateTime where
  year : ℤ
  month : ℤ
  day : ℤ
  hour : ℤ
  minute : ℤ
  second : ℤ
  microsecond : ℤ
deriving DecidableEq, Repr

/-- Zero-padded decimal rendering (Python `"{:0Nd}".format`). -/
def zeroPad (w : ℕ) (n : ℤ) : String :=
  let s := toString n
  if s.length < w then String.mk (List.replicate (w - s.length) '0' ++ s.toList)
  else s

/-- The `CreationTime` format string
`"{:04}-{:02}-{:02} {:02}:{:02}:{:02}:{:03}"`. -/
def creationTimeString (t : PyDateTime) : String :=
  zeroPad 4 t.year ++ "-" ++ zeroPad 2 t.month ++ "-" ++ zeroPad 2 t.day ++ " " ++
    zeroPad 2 t.hour ++ ":" ++ zeroPad 2 t.minute ++ ":" ++ zeroPad 2 t.second ++
    ":" ++ zeroPad 3 (t.microsecond * 1000)

/-- Python `fbx_header_elements(root, time)`: appends the `FBXHeaderExtension`,
`FileId`, `CreationTime`, `Creator` and `GlobalSettings` top-level elements.
`version_string` is `bpy.app.version_string` (external host data). -/
def fbx_header_elements (root : Elem) (version_string : String)
    (t : PyDateTime) : Except String Elem := do
  let header_ext : Elem :=
    ⟨"FBXHeaderExtension", [],
     [elem_data_single_int32 "FBXHeaderVersion" FBX_HEADER_VERSION,
      elem_data_single_int32 "FBXVersion" FBX_VERSION,
      elem_data_single_int32 "EncryptionType" 0,
      ⟨"CreationTimeStamp", [],
       [elem_data_single_int32 "Version" 1000,
        elem_data_single_int32 "Year" t.year,
        elem_data_single_int32 "Month" t.month,
        elem_data_single_int32 "Day" t.day,
        elem_data_single_int32 "Hour" t.hour,
        elem_data_single_int32 "Minute" t.minute,
        elem_data_single_int32 "Second" t.second,
        elem_data_single_int32 "Millisecond" (t.microsecond * 1000)]⟩,
      elem_data_single_string_unicode "Creator"
        ("Blender version " ++ version_string)]⟩
  let root := root.appendChild header_ext
  let root := root.appendChild (elem_data_single_bytes "FileId" "FooBar")
  let root := root.appendChild
    (elem_data_single_string_unicode "CreationTime" (creationTimeString t))
  let root := root.appendChild
    (elem_data_single_string_unicode "Creator"
      ("Blender version " ++ version_string))
  let props := elem_empty "Properties70"
  let props ← elem_props_set props "p_integer" "UpAxis" (pI 1)
  let props ← elem_props_set props "p_integer" "UpAxisSign" (pI 1)
  let props ← elem_props_set props "p_integer" "FrontAxis" (pI 2)
  let props ← elem_props_set props "p_integer" "FrontAxisSign" (pI 1)
  let props ← elem_props_set props "p_integer" "CoordAxis" (pI 0)
  let props ← elem_props_set props "p_integer" "CoordAxisSign" (pI 1)
  let props ← elem_props_set props "p_number" "UnitScaleFactor" (pF 1.0)
  let props ← elem_props_set props "p_color_rgb" "AmbientColor" (p3 0.0 0.0 0.0)
  let props ← elem_props_set props "p_string" "DefaultCamera" (pS "")
  let props ← elem_props_set props "p_enum" "TimeMode" (pI 11)
  let props ← elem_props_set props "p_timestamp" "TimeSpanStart" (pI 0)
  let props ← elem_props_set props "p_timestamp" "TimeSpanStop" (pI 479181389250)
  let global_settings : Elem :=
    ⟨"GlobalSettings", [], [elem_data_single_int32 "Version" 1000, props]⟩
  pure (root.appendChild global_settings)

/-- Python `fbx_documents_elements(root, name)`: appends the single `Documents`
top-level element (one document record, UID allocated from the registry). -/
def fbx_documents_elements (pyhash : String → ℤ) (root : Elem) (name : String)
    (st : UIDState String) : Except String (Elem × UIDState String) := do
  let r ← get_fbxuid_from_key pyhash (fun _ => Option.none) st
    ("__FBX_Document__" ++ name)
  let doc_uid := r.1
  let st := r.2
  let props := elem_empty "Properties70"
  let props ← elem_props_set props "p_object" "SourceObject" pNone
  let props ← elem_props_set props "p_string" "ActiveAnimStackName" (pS "")
  let doc : Elem :=
    ⟨"Document",
     [(.add_int64, pI doc_uid),
      (.add_string, .scalar (.bytes "")),
      (.add_string_unicode, .scalar (.str name))],
     [props, elem_data_single_int64 "RootNode" 0]⟩
  let docs : Elem := ⟨"Documents", [], [elem_data_single_int32 "Count" 1, doc]⟩
  pure (root.appendChild docs, st)

/-- Python `fbx_references_elements(root)`: appends the (empty) `References`. -/
def fbx_references_elements (root : Elem) : Elem :=
  root.appendChild (elem_empty "References")

/-- Python `fbx_definitions_elements(root, scene_data)`: appends `Definitions` with
the templates version, the total user count, and one generated block per
registered template. -/
def fbx_definitions_elements (root : Elem) (scene_data : FBXData) :
    Except String Elem := do
  let definitions := elem_empty "Definitions"
  let definitions := definitions.appendChild
    (elem_data_single_int32 "Version" FBX_TEMPLATES_VERSION)
  let definitions := definitions.appendChild
    (elem_data_single_int32 "Count" scene_data.templates_users)
  let definitions ← scene_data.templates.foldlM
    (fun acc p => fbx_template_generate acc p.2) definitions
  pure (root.appendChild definitions)

/-- Python `fbx_objects_elements(root, scene_data)`: appends `Objects`, emitting the
camera blocks; the mesh and object loops of the source are `pass` stubs and
emit nothing. -/
def fbx_objects_elements (pyhash : String → ℤ) (root : Elem)
    (scene_data : FBXData) (st : UIDState String) :
    Except String (Elem × UIDState String) := do
  let objects := elem_empty "Objects"
  let r ← scene_data.data_cameras.foldlM
    (fun (acc : Elem × UIDState String) p =>
      fbx_data_cameras_elements pyhash acc.1 p.1 scene_data acc.2)
    (objects, st)
  -- for mesh in scene_data.data_meshes: pass
  -- for obj in scene_data.objects: pass
  pure (root.appendChild r.1, r.2)

/-- Python `fbx_connections_elements(root, scene_data)`: appends the (empty)
`Connections`. -/
def fbx_connections_elements (root : Elem) : Elem :=
  root.appendChild (elem_empty "Connections")

/-- Python `fbx_takes_elements(root, scene_data)`: appends the (empty) `Takes`. -/
def fbx_takes_elements (root : Elem) : Elem :=
  root.appendChild (elem_empty "Takes")

/-- The document-construction portion of `save_single`: builds the whole
element tree that is then handed to `encode_bin.write`.  `object_types` is
overwritten with the fixed development set, as in the source.  The UID
registry starts empty (a fresh process/run).  `global_scale` is
`global_matrix.median_scale`, computed by `mathutils` (external). -/
def save_single_tree (pyhash : String → ℤ) (scene : BScene) (global_scale : PyFloat)
    (version_string : String) (t : PyDateTime) : Except String Elem := do
  let object_types := ["EMPTY", "CAMERA", "LAMP", "MESH"]
  let scene_data := fbx_data_from_scene scene object_types global_scale
  let root := elem_empty ""
  let st : UIDState String := ⟨[], ∅⟩
  let root ← fbx_header_elements root version_string t
  let r1 ← fbx_documents_elements pyhash root scene.name st
  let root := fbx_references_elements r1.1
  let root ← fbx_definitions_elements root scene_data
  let r2 ← fbx_objects_elements pyhash root scene_data r1.2
  let root := fbx_connections_elements r2.1
  let root := fbx_takes_elements root
  pure root

/-! ### Decidable equality for results -/

instance {ε α : Type} [DecidableEq ε] [DecidableEq α] : DecidableEq (Except ε α)
  | .ok a, .ok b =>
    if h : a = b then .isTrue (by rw [h]) else .isFalse (by simp [h])
  | .error a, .error b =>
    if h : a = b then .isTrue (by rw [h]) else .isFalse (by simp [h])
  | .ok _, .error _ => .isFalse (by simp)
  | .error _, .ok _ => .isFalse (by simp)

/-! ### Spec-side definitions

These definitions follow the words of the specification (not the code); the
refinement theorems below compare them with the embedded source. -/

/-- The claimed suppression condition of `writePropertyIfChanged`, following
the spec's words: the template's default map contains the property name, the
stored default's kind matches the kind name, and its value is equal to the
written value — tuple-wise for multi-component kinds. -/
def templateHasSameDefault (template : FBXTemplate) (ptype : PropDef)
    (ptype_name name : String) (value : PyVal) : Bool :=
  match alookup template.properties name with
  | some (tv, tk) =>
    tk == ptype_name &&
      (if ptype.encoders.length ≤ 1 then pyEq tv value
       else
         match pyTuple tv, pyTuple value with
         | .ok xs, .ok ys => pyEq (.tuple xs) (.tuple ys)
         | _, _ => false)
  | Option.none => false

/-- A CameraSwitcher NodeAttribute record, per the spec's words: tag
`NodeAttribute`, third payload value the byte string `CameraSwitcher`. -/
def isCameraSwitcherRecord (e : Elem) : Bool :=
  e.name == "NodeAttribute" &&
    e.payload.drop 2 == [(.add_string, .scalar (.bytes "CameraSwitcher"))]

/-- A Camera NodeAttribute record, per the spec's words. -/
def isCameraRecord (e : Elem) : Bool :=
  e.name == "NodeAttribute" &&
    e.payload.drop 2 == [(.add_string, .scalar (.bytes "Camera"))]

/-! ### Concrete test scenes -/

/-- A camera datablock: default 36mm x 24mm sensor, no shift,
`angle_x = 0.857`. -/
def camDataA : BData :=
  ⟨"Camera", "Camera", 36.0, 24.0, 0.0, 0.0, 0.857, 0.651, 35.0, 0.1, 100.0⟩

/-- A camera object at the origin (identity rotation). -/
def camObjA : BObject :=
  ⟨"Object", "Camera", "CAMERA", camDataA, (0.0, 0.0, 0.0), (0.0, 0.0, 0.0),
   (1.0, 1.0, 1.0), ((1.0, 0.0, 0.0), (0.0, 1.0, 0.0), (0.0, 0.0, 1.0))⟩

/-- A scene whose only exportable object is the single camera. -/
def sceneOneCam : BScene := ⟨"Scene", [camObjA], ⟨1920, 1080⟩⟩

/-- The aggregated snapshot of the single-camera scene (development-fixed
object types, unit global scale). -/
def sdOneCam : FBXData :=
  fbx_data_from_scene sceneOneCam ["EMPTY", "CAMERA", "LAMP", "MESH"] 1.0

/-- A representative Python string-hash function for concrete runs (Python's
actual string hash is a salted runtime value; only its type matters). -/
def lenHash (s : String) : ℤ := s.length

/-- An empty scene. -/
def sceneEmpty : BScene := ⟨"Scene", [], ⟨1920, 1080⟩⟩

/-! ## Theorems -/

/-! ### Element-tree facts -/

@[simp] theorem Elem.name_mk (n p c) : (Elem.mk n p c).name = n := rfl

@[simp] theorem Elem.payload_mk (n p c) : (Elem.mk n p c).payload = p := rfl

@[simp] theorem Elem.elems_mk (n p c) : (Elem.mk n p c).elems = c := rfl

@[simp] theorem Elem.appendChild_mk (n p c child) :
    (Elem.mk n p c).appendChild child = .mk n p (c ++ [child]) := rfl

@[simp] theorem Elem.name_appendChild (e child : Elem) :
    (e.appendChild child).name = e.name := by cases e; rfl

@[simp] theorem Elem.payload_appendChild (e child : Elem) :
    (e.appendChild child).payload = e.payload := by cases e; rfl

@[simp] theorem Elem.elems_appendChild (e child : Elem) :
    (e.appendChild child).elems = e.elems ++ [child] := by cases e; rfl

/-! ### UID probe facts -/

theorem probeMeasure_lt {uids : Finset ℤ} {up : Bool} {uid : ℤ}
    (h : uid ∈ uids) :
    probeMeasure uids up (uid + (if up then 1 else -1)) < probeMeasure uids up uid := by
  unfold probeMeasure
  apply Finset.card_lt_card
  constructor
  · intro x hx
    simp only [Finset.mem_filter] at hx ⊢
    rcases hx with ⟨hx1, hx2⟩
    refine ⟨hx1, ?_⟩
    cases up <;> simp at hx2 ⊢ <;> omega
  · intro hsub
    have hmem := hsub (Finset.mem_filter.mpr ⟨h, by cases up <;> simp⟩)
    simp only [Finset.mem_filter] at hmem
    rcases hmem with ⟨-, hm⟩
    cases up <;> simp at hm <;> omega

theorem uid_probe_not_mem {uids : Finset ℤ} {up : Bool} {uid : ℤ}
    (h : uid ∉ uids) : uid_probe uids up uid = .ok uid := by
  rw [uid_probe, uid_probe_fuel]
  simp [h]

/-- With any sufficient iteration budget, the probe loop never raises (the
guard `0 > uid >= 2**64` is unsatisfiable) and lands on an unused value. -/
theorem uid_probe_fuel_ok (uids : Finset ℤ) (up : Bool) :
    ∀ (fuel : ℕ) (uid : ℤ), probeMeasure uids up uid < fuel →
      ∃ u, uid_probe_fuel uids up fuel uid = .ok u ∧ u ∉ uids := by
  intro fuel
  induction fuel with
  | zero => intro uid h; omega
  | succ fuel ih =>
    intro uid hf
    by_cases h : uid ∈ uids
    · have hlt := @probeMeasure_lt uids up uid h
      have hguard : ¬(0 > uid + (if up then 1 else -1) ∧
          uid + (if up then 1 else -1) ≥ 2 ^ 64) := by
        rintro ⟨h1, h2⟩; omega
      rw [uid_probe_fuel]
      simp only [h, if_true, if_neg hguard]
      exact ih _ (by omega)
    · exact ⟨uid, by rw [uid_probe_fuel]; simp [h], h⟩

/-- The probe loop never raises and always lands on an unused value. -/
theorem uid_probe_ok (uids : Finset ℤ) (up : Bool) (uid : ℤ) :
    ∃ u, uid_probe uids up uid = .ok u ∧ u ∉ uids :=
  uid_probe_fuel_ok uids up _ uid (Nat.lt_succ_self _)

/-! ### Registry facts -/

theorem get_fbxuid_ok_cases {κ : Type} [DecidableEq κ] {pyhash : κ → ℤ}
    {asInt : κ → Option ℤ} {st : UIDState κ} {k : κ} {u : ℤ}
    {st' : UIDState κ}
    (h : get_fbxuid_from_key pyhash asInt st k = .ok (u, st')) :
    (alookup st.keysToUids k = some u ∧ st' = st) ∨
    (alookup st.keysToUids k = Option.none ∧ u ∉ st.usedUids ∧
      st' = ⟨(k, u) :: st.keysToUids, insert u st.usedUids⟩) := by
  unfold get_fbxuid_from_key at h
  cases hl : alookup st.keysToUids k with
  | some v =>
    rw [hl] at h
    cases h
    exact Or.inl ⟨rfl, rfl⟩
  | none =>
    rw [hl] at h
    cases hk : _key_to_uid pyhash asInt st.usedUids k with
    | error e => rw [hk] at h; cases h
    | ok u0 =>
      rw [hk] at h
      cases h
      have hex : ∃ u1, _key_to_uid pyhash asInt st.usedUids k = .ok u1 ∧
          u1 ∉ st.usedUids := by
        unfold _key_to_uid
        exact uid_probe_ok _ _ _
      obtain ⟨u1, h1, hmem⟩ := hex
      rw [hk] at h1
      cases h1
      exact Or.inr ⟨rfl, hmem, rfl⟩

/-- A successful lookup memoizes: looking the same key up again returns the
same UID and leaves the state unchanged. -/
theorem get_fbxuid_memo {κ : Type} [DecidableEq κ] {pyhash : κ → ℤ}
    {asInt : κ → Option ℤ} {st : UIDState κ} {k : κ} {u : ℤ}
    {st' : UIDState κ}
    (h : get_fbxuid_from_key pyhash asInt st k = .ok (u, st')) :
    get_fbxuid_from_key pyhash asInt st' k = .ok (u, st') := by
  rcases get_fbxuid_ok_cases h with ⟨hl, rfl⟩ | ⟨hl, hmem, rfl⟩
  · unfold get_fbxuid_from_key
    rw [hl]
  · unfold get_fbxuid_from_key
    simp [alookup]

/-- Submitting fresh, pairwise-distinct keys yields pairwise-distinct UIDs;
moreover every returned UID is fresh relative to the starting state and
recorded in the final state. -/
theorem runKeys_nodup {κ : Type} [DecidableEq κ] (pyhash : κ → ℤ)
    (asInt : κ → Option ℤ) :
    ∀ (keys : List κ) (st : UIDState κ) (us : List ℤ) (st' : UIDState κ),
      (∀ p ∈ st.keysToUids, p.2 ∈ st.usedUids) →
      (∀ k ∈ keys, alookup st.keysToUids k = Option.none) →
      keys.Nodup →
      runKeys pyhash asInt st keys = .ok (us, st') →
      us.Nodup ∧ (∀ u ∈ us, u ∈ st'.usedUids ∧ u ∉ st.usedUids) ∧
        st.usedUids ⊆ st'.usedUids ∧
        (∀ p ∈ st'.keysToUids, p.2 ∈ st'.usedUids) := by
  intro keys
  induction keys with
  | nil =>
    intro st us st' hinv _ _ hrun
    cases hrun
    exact ⟨List.nodup_nil, by simp, le_refl _, hinv⟩
  | cons k rest ih =>
    intro st us st' hinv hfresh hnd hrun
    unfold runKeys at hrun
    cases hget : get_fbxuid_from_key pyhash asInt st k with
    | error e => rw [hget] at hrun; cases hrun
    | ok r =>
      obtain ⟨u, st1⟩ := r
      rw [hget] at hrun
      simp only [Bind.bind, Except.bind] at hrun
      cases hrest : runKeys pyhash asInt st1 rest with
      | error e =>
        rw [hrest] at hrun
        cases hrun
      | ok r2 =>
        obtain ⟨us', st2⟩ := r2
        rw [hrest] at hrun
        simp only [Pure.pure, Except.pure] at hrun
        cases hrun
        rcases get_fbxuid_ok_cases hget with ⟨hl, _⟩ | ⟨hl, hmem, rfl⟩
        · exact absurd hl (by simp [hfresh k (by simp)])
        · have hinv1 : ∀ p ∈ (k, u) :: st.keysToUids,
              Prod.snd p ∈ insert u st.usedUids := by
            intro p hp
            rcases List.mem_cons.mp hp with rfl | hp
            · exact Finset.mem_insert_self _ _
            · exact Finset.mem_insert_of_mem (hinv p hp)
          have hfresh1 : ∀ k' ∈ rest,
              alookup ((k, u) :: st.keysToUids) k' = Option.none := by
            intro k' hk'
            have hne : k ≠ k' := fun he => (List.nodup_cons.mp hnd).1 (he ▸ hk')
            simp only [alookup, if_neg hne]
            exact hfresh k' (List.mem_cons_of_mem _ hk')
          obtain ⟨hnd', hus', hsub', hinv'⟩ :=
            ih _ us' st' hinv1 hfresh1 (List.nodup_cons.mp hnd).2 hrest
          refine ⟨?_, ?_, ?_, hinv'⟩
          · refine List.nodup_cons.mpr ⟨fun hu => ?_, hnd'⟩
            exact (hus' u hu).2 (Finset.mem_insert_self _ _)
          · intro v hv
            rcases List.mem_cons.mp hv with rfl | hv
            · exact ⟨hsub' (Finset.mem_insert_self _ _), hmem⟩
            · exact ⟨(hus' v hv).1, fun hvs =>
                (hus' v hv).2 (Finset.mem_insert_of_mem hvs)⟩
          · exact le_trans (Finset.subset_insert _ _) hsub'

/-! ### Claim C9 -/

/-- Counterexample to C9 as originally stated: under IEEE-754 binary64
arithmetic — the float semantics the Python source actually runs under —
`units_convert(25.4, "millimeter", "inch")` computes
`25.4 * ((1.0/0.0254)/1000.0)` and returns `0.9999999999999999`, the double
`(2^53 - 1) / 2^53` one ulp below `1.0`, which is not equal to `1.0`. -/
theorem claim_C9_counterexample :
    units_convert_f64 (f64lit 25.4) "millimeter" "inch" =
      some ⟨9007199254740991, 9007199254740992⟩ ∧
    PyFloat.toRat ⟨9007199254740991, 9007199254740992⟩ =
      9007199254740991 / 9007199254740992 ∧
    (9007199254740991 / 9007199254740992 : ℚ) ≠ 1 := by
  refine ⟨by decide, by norm_num [PyFloat.toRat], by norm_num⟩

/-- Claim C9 (amended): under binary64 arithmetic,
`units_convert(25.4, "millimeter", "inch")` returns `1 - 2^-53`
(`0.9999999999999999`, one ulp below `1.0`, from the three roundings in
`25.4 * ((1.0/0.0254)/1000.0)`), and
`units_convert(1.0, "meter", "kilometer")` returns exactly `0.001` — that
is, the binary64 value of the literal `0.001`, every operation being
exact. -/
theorem claim_C9_units_convert_binary64 :
    (units_convert_f64 (f64lit 25.4) "millimeter" "inch").map PyFloat.toRat =
      some (1 - 1 / 2 ^ 53) ∧
    (units_convert_f64 (f64lit 1.0) "meter" "kilometer").map PyFloat.toRat =
      some (f64lit 0.001).toRat := by
  constructor
  · have h : units_convert_f64 (f64lit 25.4) "millimeter" "inch" =
        some ⟨9007199254740991, 9007199254740992⟩ := by decide
    rw [h]
    simp only [Option.map_some']
    norm_num [PyFloat.toRat]
  · have h : units_convert_f64 (f64lit 1.0) "meter" "kilometer" =
        some (f64lit 0.001) := by decide
    rw [h]
    rfl

/-! ### Claim C10 -/

/-- Claim C10: for every template handed to the Definitions generator, the
generated `ObjectType` block's payload is the byte string `"Model"`
regardless of the template's class tag, and the template's own `type_name`
field never influences the output. -/
theorem claim_C10_objecttype_always_model (root : Elem) (t : FBXTemplate) :
    (∀ s, fbx_template_generate root { t with type_name := s } =
      fbx_template_generate root t) ∧
    (∀ root', fbx_template_generate root t = .ok root' →
      ∃ block, root'.elems = root.elems ++ [block] ∧
        block.name = "ObjectType" ∧
        block.payload = [(.add_string, .scalar (.bytes "Model"))]) := by
  constructor
  · intro s
    rfl
  · intro root' h
    unfold fbx_template_generate at h
    by_cases he : t.properties.isEmpty
    · simp only [he, if_true, Pure.pure, Except.pure] at h
      cases h
      refine ⟨Elem.mk "ObjectType" [(.add_string, .scalar (.bytes "Model"))]
        [Elem.mk "Count" [(.add_int32, .scalar (.int t.nbr_users))] []],
        ?_, rfl, rfl⟩
      exact Elem.elems_appendChild root _
    · simp only [he, if_false, Bind.bind, Except.bind] at h
      cases hp : List.foldlM
          (fun pr (nv : String × (PyVal × String)) =>
            elem_props_set pr nv.2.2 nv.1 nv.2.1)
          (elem_empty "Properties70") t.properties with
      | error e => rw [hp] at h; cases h
      | ok props =>
        rw [hp] at h
        simp only [Pure.pure, Except.pure] at h
        cases h
        refine ⟨Elem.mk "ObjectType" [(.add_string, .scalar (.bytes "Model"))]
          [Elem.mk "Count" [(.add_int32, .scalar (.int t.nbr_users))] [],
           Elem.mk "PropertyTemplate"
             [(.add_string, .scalar (.bytes t.prop_type_name))] [props]],
          ?_, rfl, rfl⟩
        exact Elem.elems_appendChild root _

/-- Witness for C10 at a concrete root and template. -/
theorem claim_C10_witness :
    ∃ block,
      (Elem.mk "Definitions" []
        [Elem.mk "ObjectType" [(.add_string, .scalar (.bytes "Model"))]
          [elem_data_single_int32 "Count" 1]]).elems =
        (elem_empty "Definitions").elems ++ [block] ∧
      block.name = "ObjectType" ∧
      block.payload = [(.add_string, .scalar (.bytes "Model"))] :=
  (claim_C10_objecttype_always_model (elem_empty "Definitions")
    (fbx_template_def_nodeattribute_camera [] 1)).2 _ (by rfl)

/-! ### Claim C2 -/

/-- Claim C2: within one export run, pairwise-distinct keys submitted to
`get_fbxuid_from_key` receive pairwise-distinct UIDs, and submitting the same
key a second time returns the same UID as the first submission (for any key
type, hash function and int view). -/
theorem claim_C2_uid_injective {κ : Type} [DecidableEq κ] (pyhash : κ → ℤ)
    (asInt : κ → Option ℤ) :
    (∀ (keys : List κ) (us : List ℤ) (st' : UIDState κ), keys.Nodup →
      runKeys pyhash asInt ⟨[], ∅⟩ keys = .ok (us, st') → us.Nodup) ∧
    (∀ (st : UIDState κ) (k : κ) (u : ℤ) (st₁ : UIDState κ),
      get_fbxuid_from_key pyhash asInt st k = .ok (u, st₁) →
      get_fbxuid_from_key pyhash asInt st₁ k = .ok (u, st₁)) := by
  constructor
  · intro keys us st' hnd hrun
    exact (runKeys_nodup pyhash asInt keys ⟨[], ∅⟩ us st' (by simp)
      (fun _ _ => rfl) hnd hrun).1
  · intro st k u st₁ h
    exact get_fbxuid_memo h

/-- Witness for C2: the keys `[10, 7]` (distinct) receive the distinct UIDs
`[10, 7]`, and resubmitting `10` returns `10` again. -/
theorem claim_C2_witness :
    ([10, 7] : List ℤ).Nodup ∧
    get_fbxuid_from_key (fun i : ℤ => i) some
      ⟨[(10, 10)], insert 10 ∅⟩ 10 = .ok (10, ⟨[(10, 10)], insert 10 ∅⟩) := by
  constructor
  · exact (claim_C2_uid_injective (fun i : ℤ => i) some).1 [10, 7] [10, 7]
      ⟨[(7, 7), (10, 10)], insert 7 (insert 10 ∅)⟩ (by decide) (by decide)
  · exact (claim_C2_uid_injective (fun i : ℤ => i) some).2
      ⟨[], ∅⟩ 10 10 ⟨[(10, 10)], insert 10 ∅⟩ (by decide)

/-! ### Claim C7 -/

/-- Claim C7 (code bug): the probe loop never signals UID-space exhaustion —
the guard `0 > uid >= 2**64` is a chained Python comparison that can never be
true, so the `ValueError` is unreachable — and `get_fbxuid_from_key` can
return UIDs outside `[0, 2^64)`: with a hash function returning `-5`, two
distinct keys receive the out-of-range UIDs `-5` and `-4` (the latter via the
probe loop) without any error. -/
theorem claim_C7_exhaustion_unreachable :
    (∀ (uids : Finset ℤ) (up : Bool) (uid : ℤ),
      ∃ u, uid_probe uids up uid = .ok u) ∧
    (∃ st', runKeys (fun _ : String => (-5 : ℤ)) (fun _ => Option.none)
        ⟨[], ∅⟩ ["camA", "camB"] = .ok ([-5, -4], st') ∧
      (-5 : ℤ) < 0 ∧ (-4 : ℤ) < 0) := by
  constructor
  · intro uids up uid
    obtain ⟨u, hu, _⟩ := uid_probe_ok uids up uid
    exact ⟨u, hu⟩
  · exact ⟨⟨[("camB", -4), ("camA", -5)], insert (-4) (insert (-5) ∅)⟩,
      by decide, by decide, by decide⟩

/-! ### Property-writer facts -/

/-- Shape of the unconditional property writer: one `P` child appended, whose
payload starts with the name and the three tag strings, followed by the
encoded values. -/
theorem _elem_props_set_shape (elem : Elem) (ptype : PropDef) (name : String)
    (value : PyVal)
    (hval : 2 ≤ ptype.encoders.length → ∃ l, pyTuple value = .ok l) :
    ∃ p, _elem_props_set elem ptype name value = .ok (elem.appendChild p) ∧
      p.name = "P" ∧ p.elems = [] ∧
      ∃ vals, p.payload =
        [(.add_string, .scalar (.bytes name)),
         (.add_string, .scalar (.bytes ptype.t1)),
         (.add_string, .scalar (.bytes ptype.t2)),
         (.add_string, .scalar (.bytes ptype.t3))] ++ vals ∧
        (∀ enc, ptype.encoders = [enc] → vals = [(enc, value)]) ∧
        (ptype.encoders = [] → vals = []) ∧
        (2 ≤ ptype.encoders.length → ∃ comps, pyTuple value = .ok comps ∧
          vals = (ptype.encoders.zip comps).map fun q => (q.1, PyVal.scalar q.2)) := by
  obtain ⟨t1, t2, t3, encs⟩ := ptype
  match encs with
  | [enc] =>
    refine ⟨_, rfl, rfl, rfl, [(enc, value)], rfl, ?_, ?_, ?_⟩
    · intro enc' he
      cases he
      rfl
    · intro he
      cases he
    · intro hle
      simp at hle
  | [] =>
    refine ⟨_, rfl, rfl, rfl, [], rfl, ?_, fun _ => rfl, ?_⟩
    · intro enc' he
      cases he
    · intro hle
      simp at hle
  | e1 :: e2 :: es =>
    obtain ⟨l, hl⟩ := hval (Nat.le_add_left 2 es.length)
    refine ⟨Elem.mk "P"
      ([(.add_string, .scalar (.bytes name)),
        (.add_string, .scalar (.bytes t1)),
        (.add_string, .scalar (.bytes t2)),
        (.add_string, .scalar (.bytes t3))] ++
        ((e1 :: e2 :: es).zip l).map fun q => (q.1, PyVal.scalar q.2)) [],
      ?_, rfl, rfl,
      ((e1 :: e2 :: es).zip l).map fun q => (q.1, PyVal.scalar q.2),
      ?_, ?_, ?_, ?_⟩
    · unfold _elem_props_set
      rw [hl]
      rfl
    · rfl
    · intro enc' he
      cases he
    · intro he
      cases he
    · intro _
      exact ⟨l, hl, rfl⟩

/-! ### Claim C6 -/

/-- Claim C6 (amended): for every known property kind, name and value —
where, for multi-encoder kinds, the value must be iterable — writing a
property appends exactly one `P` child to the container; its payload is the
property name, the kind's three FBX tag strings, then the encoded values:
the scalar value itself for a single-encoder kind, the positionally unpacked
components for a multi-encoder kind, but pairing encoders and components
positionally stops at the shorter sequence (a value with fewer components
than declared encoders yields fewer encoded values, unlike the one-per-
encoder payload the original claim promises), and no value for the
zero-encoder kind `p_object`. -/
theorem claim_C6_props_set (elem : Elem) (ptype_name name : String)
    (value : PyVal) (ptype : PropDef)
    (hdef : FBX_PROPERTIES_DEFINITIONS ptype_name = some ptype)
    (hval : 2 ≤ ptype.encoders.length → ∃ l, pyTuple value = .ok l) :
    ∃ p, elem_props_set elem ptype_name name value = .ok (elem.appendChild p) ∧
      p.name = "P" ∧ p.elems = [] ∧
      ∃ vals, p.payload =
        [(.add_string, .scalar (.bytes name)),
         (.add_string, .scalar (.bytes ptype.t1)),
         (.add_string, .scalar (.bytes ptype.t2)),
         (.add_string, .scalar (.bytes ptype.t3))] ++ vals ∧
        (∀ enc, ptype.encoders = [enc] → vals = [(enc, value)]) ∧
        (ptype.encoders = [] → vals = []) ∧
        (2 ≤ ptype.encoders.length → ∃ comps, pyTuple value = .ok comps ∧
          vals = ((ptype.encoders.zip comps).map fun q => (q.1, PyVal.scalar q.2)) ∧
          vals.length = min ptype.encoders.length comps.length) := by
  obtain ⟨p, hset, hname, helems, vals, hpayload, h1, h0, h2⟩ :=
    _elem_props_set_shape elem ptype name value hval
  refine ⟨p, ?_, hname, helems, vals, hpayload, h1, h0, ?_⟩
  · unfold elem_props_set
    rw [hdef]
    exact hset
  · intro hle
    obtain ⟨comps, hc, hv⟩ := h2 hle
    exact ⟨comps, hc, hv, by rw [hv]; simp⟩

/-- Counterexample to C6 as originally stated: for the 3-encoder kind
`p_vector_3d` and the 2-component value `(1, 2)`, the emitted `P` element
carries only 2 encoded values (payload length 6), not one per declared
encoder (which would be payload length 7). -/
theorem claim_C6_counterexample :
    (elem_props_set (elem_empty "Properties70") "p_vector_3d" "V"
        (.tuple [.int 1, .int 2])).map
      (fun e => e.elems.map fun p => p.payload.length) = .ok [6] ∧
    (FBX_PROPERTIES_DEFINITIONS "p_vector_3d").map
      (fun pt => pt.encoders.length) = some 3 ∧
    (6 : ℕ) ≠ 4 + 3 := by
  decide

/-- Witness for C6 at the kind `p_lcl_translation` and value `(1, 2, 3)`. -/
theorem claim_C6_witness :
    ∃ p, elem_props_set (elem_empty "Properties70") "p_lcl_translation"
        "Lcl Translation" (p3 1.0 2.0 3.0) =
        .ok ((elem_empty "Properties70").appendChild p) ∧
      p.name = "P" ∧ p.elems = [] ∧
      ∃ vals, p.payload =
        [(.add_string, .scalar (.bytes "Lcl Translation")),
         (.add_string, .scalar (.bytes "Lcl Translation")),
         (.add_string, .scalar (.bytes "")),
         (.add_string, .scalar (.bytes "A+"))] ++ vals ∧
        (∀ enc, [EncName.add_float64, .add_float64, .add_float64] = [enc] →
          vals = [(enc, p3 1.0 2.0 3.0)]) ∧
        ([EncName.add_float64, .add_float64, .add_float64] = [] → vals = []) ∧
        (2 ≤ [EncName.add_float64, .add_float64, .add_float64].length →
          ∃ comps, pyTuple (p3 1.0 2.0 3.0) = .ok comps ∧
          vals = (([EncName.add_float64, .add_float64, .add_float64].zip comps).map
            fun q => (q.1, PyVal.scalar q.2)) ∧
          vals.length =
            min [EncName.add_float64, .add_float64, .add_float64].length
              comps.length) :=
  claim_C6_props_set (elem_empty "Properties70") "p_lcl_translation"
    "Lcl Translation" (p3 1.0 2.0 3.0)
    ⟨"Lcl Translation", "", "A+", [.add_float64, .add_float64, .add_float64]⟩
    rfl (fun _ => ⟨[.float 1.0, .float 2.0, .float 3.0], rfl⟩)

/-! ### Claim C1 -/

/-- Counterexample to C1 as originally stated: for the zero-encoder kind
`p_object`, a template whose default map stores the property name with the
same kind name and an equal value (`LookAtProperty: (None, p_object)`, as in
the built-in Model template) does not suppress the write —
`elem_props_template_set` still appends one `P` element, because a catalog
entry of fewer than four items matches neither `len(ptype) == 4` nor
`len(ptype) > 4`. -/
theorem claim_C1_counterexample :
    templateHasSameDefault
      ⟨"Model", "KFbxNode", [("LookAtProperty", (pNone, "p_object"))], 0⟩
      ⟨"object", "", "", []⟩ "p_object" "LookAtProperty" pNone = true ∧
    FBX_PROPERTIES_DEFINITIONS "p_object" = some ⟨"object", "", "", []⟩ ∧
    (elem_props_template_set
        ⟨"Model", "KFbxNode", [("LookAtProperty", (pNone, "p_object"))], 0⟩
        (elem_empty "Properties70") "p_object" "LookAtProperty" pNone).map
      (fun e => e.elems.length) = .ok 1 := by
  decide

/-- Claim C1 (amended): for every kind declaring at least one encoder — and,
for multi-encoder kinds, values and stored defaults that are iterable —
`elem_props_template_set` appends nothing exactly when the template's default
map contains the property name with the same kind name and an equal value
(tuple-wise for multi-component kinds, Python `==` on components); for any
other value (or absent name, or mismatched kind) it behaves exactly as the
unconditional writer `elem_props_set`, which then appends exactly one `P`
element.  For the zero-encoder kind `p_object` the suppression never fires
(see the counterexample). -/
theorem claim_C1_template_set (template : FBXTemplate) (elem : Elem)
    (ptype_name name : String) (value : PyVal) (ptype : PropDef)
    (hdef : FBX_PROPERTIES_DEFINITIONS ptype_name = some ptype)
    (henc : ptype.encoders ≠ [])
    (hshape : 2 ≤ ptype.encoders.length →
      (∃ l, pyTuple value = .ok l) ∧
      ∀ tv tk, alookup template.properties name = some (tv, tk) →
        ∃ l, pyTuple tv = .ok l) :
    elem_props_template_set template elem ptype_name name value =
      (if templateHasSameDefault template ptype ptype_name name value then
        .ok elem
      else elem_props_set elem ptype_name name value) ∧
    (templateHasSameDefault template ptype ptype_name name value = false →
      ∃ p, elem_props_set elem ptype_name name value =
        .ok (elem.appendChild p) ∧ p.name = "P") := by
  have hwrite : ∃ p, elem_props_set elem ptype_name name value =
      .ok (elem.appendChild p) ∧ p.name = "P" := by
    obtain ⟨p, hset, hname, _⟩ :=
      _elem_props_set_shape elem ptype name value (fun h => (hshape h).1)
    refine ⟨p, ?_, hname⟩
    unfold elem_props_set
    rw [hdef]
    exact hset
  refine ⟨?_, fun _ => hwrite⟩
  unfold elem_props_template_set templateHasSameDefault elem_props_set
  rw [hdef]
  obtain ⟨t1, t2, t3, encs⟩ := ptype
  cases hl : alookup template.properties name with
  | none => simp
  | some tvk =>
    obtain ⟨tv, tk⟩ := tvk
    match encs with
    | [] => exact absurd rfl henc
    | [enc] =>
      simp only [List.length_cons, List.length_nil]
      cases hpe : pyEq tv value <;> cases htk : (tk == ptype_name) <;>
        simp [hpe, htk, Pure.pure, Except.pure]
    | e1 :: e2 :: es =>
      obtain ⟨⟨lv, hlv⟩, hstored⟩ := hshape (Nat.le_add_left 2 es.length)
      obtain ⟨lt, hlt⟩ := hstored tv tk hl
      simp only [List.length_cons]
      rw [hlt, hlv]
      have hlen1 : ¬(es.length + 1 + 1 = 1) := by omega
      have hlen2 : ¬(es.length + 1 + 1 ≤ 1) := by omega
      simp only [if_neg hlen1, if_neg hlen2, Bind.bind, Except.bind]
      cases hpe : pyEq (.tuple lt) (.tuple lv) <;>
        cases htk : (tk == ptype_name) <;> simp [hpe, htk, Pure.pure, Except.pure]

/-- A concrete template for the C1 witness (the CameraSwitcher defaults). -/
def tmplSwitcherW : FBXTemplate :=
  ⟨"NodeAttribute", "KFbxCameraSwitcher",
   [("Color", (p3 0.8 0.8 0.8, "p_color_rgb")),
    ("Camera Index", (pI 1, "p_integer"))], 0⟩

/-- The catalog entry of `p_color_rgb`. -/
def ptColorW : PropDef :=
  ⟨"ColorRGB", "Color", "", [.add_float64, .add_float64, .add_float64]⟩

/-- Witness for C1: writing `Color = (0.8, 0.8, 0.8)` against the switcher
template (which stores exactly that default) is suppressed. -/
theorem claim_C1_witness :
    (elem_props_template_set tmplSwitcherW (elem_empty "Properties70")
        "p_color_rgb" "Color" (p3 0.8 0.8 0.8) =
      (if templateHasSameDefault tmplSwitcherW ptColorW "p_color_rgb" "Color"
          (p3 0.8 0.8 0.8) then
        .ok (elem_empty "Properties70")
      else
        elem_props_set (elem_empty "Properties70") "p_color_rgb" "Color"
          (p3 0.8 0.8 0.8))) ∧
    (templateHasSameDefault tmplSwitcherW ptColorW "p_color_rgb" "Color"
        (p3 0.8 0.8 0.8) = false →
      ∃ p, elem_props_set (elem_empty "Properties70") "p_color_rgb" "Color"
          (p3 0.8 0.8 0.8) =
        .ok ((elem_empty "Properties70").appendChild p) ∧ p.name = "P") :=
  claim_C1_template_set tmplSwitcherW (elem_empty "Properties70")
    "p_color_rgb" "Color" (p3 0.8 0.8 0.8) ptColorW rfl (by decide)
    (fun _ => ⟨⟨[.float 0.8, .float 0.8, .float 0.8], rfl⟩, by
      intro tv tk h
      simp only [tmplSwitcherW, alookup, if_pos] at h
      cases h
      exact ⟨[.float 0.8, .float 0.8, .float 0.8], rfl⟩⟩)

/-! ### Camera-writer shape facts -/

theorem exbind_ok {ε α β : Type} {m : Except ε α} {f : α → Except ε β} {b : β}
    (h : (m >>= f) = .ok b) : ∃ a, m = .ok a ∧ f a = .ok b := by
  cases m with
  | error e => simp [Bind.bind, Except.bind] at h
  | ok a => exact ⟨a, rfl, by simpa [Bind.bind, Except.bind] using h⟩

/-- A successful camera-writer call appends exactly two blocks: a
CameraSwitcher NodeAttribute record followed by a Camera NodeAttribute
record; the switcher's third child carries the switcher name derived from the
camera data's name. -/
theorem fbx_data_cameras_elements_shape {pyhash : String → ℤ} {root : Elem}
    {cam : BObject} {sd : FBXData} {st : UIDState String} {res : Elem}
    {st' : UIDState String}
    (h : fbx_data_cameras_elements pyhash root cam sd st = .ok (res, st')) :
    ∃ sw ce, res.elems = root.elems ++ [sw, ce] ∧ res.name = root.name ∧
      res.payload = root.payload ∧
      isCameraSwitcherRecord sw = true ∧ isCameraRecord ce = true ∧
      (sw.elems.getD 2 (elem_empty "")).payload =
        [(.add_string_unicode, .scalar (.str (cam.data.name ++ " switcher")))] := by
  unfold fbx_data_cameras_elements at h
  obtain ⟨ks, hks, h⟩ := exbind_ok h
  obtain ⟨r1, hr1, h⟩ := exbind_ok h
  obtain ⟨tmplS, htS, h⟩ := exbind_ok h
  obtain ⟨propsS, hpS, h⟩ := exbind_ok h
  obtain ⟨r2, hr2, h⟩ := exbind_ok h
  obtain ⟨tmplC, htC, h⟩ := exbind_ok h
  obtain ⟨p1, hp1, h⟩ := exbind_ok h
  obtain ⟨p2, hp2, h⟩ := exbind_ok h
  obtain ⟨p3x, hp3, h⟩ := exbind_ok h
  obtain ⟨p4, hp4, h⟩ := exbind_ok h
  obtain ⟨p5, hp5, h⟩ := exbind_ok h
  obtain ⟨p6, hp6, h⟩ := exbind_ok h
  obtain ⟨p7, hp7, h⟩ := exbind_ok h
  obtain ⟨p8, hp8, h⟩ := exbind_ok h
  obtain ⟨p9, hp9, h⟩ := exbind_ok h
  obtain ⟨p10, hp10, h⟩ := exbind_ok h
  obtain ⟨p11, hp11, h⟩ := exbind_ok h
  obtain ⟨p12, hp12, h⟩ := exbind_ok h
  obtain ⟨p13, hp13, h⟩ := exbind_ok h
  obtain ⟨p14, hp14, h⟩ := exbind_ok h
  obtain ⟨p15, hp15, h⟩ := exbind_ok h
  obtain ⟨p16, hp16, h⟩ := exbind_ok h
  obtain ⟨p17, hp17, h⟩ := exbind_ok h
  obtain ⟨p18, hp18, h⟩ := exbind_ok h
  obtain ⟨p19, hp19, h⟩ := exbind_ok h
  obtain ⟨p20, hp20, h⟩ := exbind_ok h
  obtain ⟨p21, hp21, h⟩ := exbind_ok h
  simp only [Pure.pure, Except.pure] at h
  cases h
  refine ⟨Elem.mk "NodeAttribute"
    [(.add_int64, pI r1.1),
     (.add_string, .scalar (.bytes (fbx_name_class "" "NodeAttribute"))),
     (.add_string, .scalar (.bytes "CameraSwitcher"))]
    [propsS,
     elem_data_single_int32 "Version" 101,
     elem_data_single_string_unicode "Name" (cam.data.name ++ " switcher"),
     elem_data_single_int32 "CameraID" 100,
     elem_data_single_int32 "CameraName" 100,
     elem_empty "CameraIndexName"],
    Elem.mk "NodeAttribute"
    [(.add_int64, pI r2.1),
     (.add_string, .scalar (.bytes (fbx_name_class "" "NodeAttribute"))),
     (.add_string, .scalar (.bytes "Camera"))]
    [p21,
     elem_data_single_string "TypeFlags" "Camera",
     elem_data_single_int32 "GeometryVersion" 124,
     elem_data_vec_float64 "Position"
       [(object_tx cam).1.1, (object_tx cam).1.2.1, (object_tx cam).1.2.2],
     elem_data_vec_float64 "Up"
       [(matVec (object_tx cam).2.2.2 (0.0, 1.0, 0.0)).1,
        (matVec (object_tx cam).2.2.2 (0.0, 1.0, 0.0)).2.1,
        (matVec (object_tx cam).2.2.2 (0.0, 1.0, 0.0)).2.2],
     elem_data_vec_float64 "LookAt"
       [(matVec (object_tx cam).2.2.2 (0.0, 0.0, -1.0)).1,
        (matVec (object_tx cam).2.2.2 (0.0, 0.0, -1.0)).2.1,
        (matVec (object_tx cam).2.2.2 (0.0, 0.0, -1.0)).2.2],
     elem_data_single_int32 "ShowInfoOnMoving" 1,
     elem_data_single_int32 "ShowAudio" 0,
     elem_data_vec_float64 "AudioColor" [0.0, 1.0, 0.0],
     elem_data_single_float64 "CameraOrthoZoom" 1.0],
    ?_, ?_, ?_, rfl, rfl, rfl⟩
  · cases root with
    | mk n p c => simp [Elem.appendChild]
  · cases root with
    | mk n p c => simp [Elem.appendChild]
  · cases root with
    | mk n p c => simp [Elem.appendChild]

/-- Folding the camera writer over a camera list appends exactly one
switcher/camera record pair per camera, in list order. -/
theorem objects_fold_shape (pyhash : String → ℤ) (sd : FBXData) :
    ∀ (cams : List (BObject × (String × String)))
      (acc r : Elem × UIDState String),
      List.foldlM (fun (a : Elem × UIDState String) p =>
        fbx_data_cameras_elements pyhash a.1 p.1 sd a.2) acc cams = .ok r →
      ∃ tail, r.1.elems = acc.1.elems ++ tail ∧ r.1.name = acc.1.name ∧
        tail.length = 2 * cams.length ∧
        ∀ i, (hi : i < cams.length) →
          isCameraSwitcherRecord (tail.getD (2 * i) (elem_empty "")) = true ∧
          isCameraRecord (tail.getD (2 * i + 1) (elem_empty "")) = true ∧
          ((tail.getD (2 * i) (elem_empty "")).elems.getD 2
              (elem_empty "")).payload =
            [(.add_string_unicode,
              .scalar (.str ((cams.get ⟨i, hi⟩).1.data.name ++ " switcher")))] := by
  intro cams
  induction cams with
  | nil =>
    intro acc r h
    simp only [List.foldlM_nil, Pure.pure, Except.pure] at h
    cases h
    exact ⟨[], by simp, rfl, rfl, fun i hi => absurd hi (by simp)⟩
  | cons c rest ih =>
    intro acc r h
    simp only [List.foldlM_cons] at h
    obtain ⟨a1, hc, h⟩ := exbind_ok h
    obtain ⟨res1, st1⟩ := a1
    obtain ⟨sw, ce, helems, hname, _, hsw, hce, hswname⟩ :=
      fbx_data_cameras_elements_shape hc
    obtain ⟨tail', h1, h2, h3, h4⟩ := ih (res1, st1) r h
    refine ⟨sw :: ce :: tail', ?_, ?_, ?_, ?_⟩
    · rw [h1, helems]
      simp
    · rw [h2, hname]
    · simp only [List.length_cons, h3]
      omega
    · intro i hi
      match i with
      | 0 =>
        refine ⟨by simpa using hsw, by simpa using hce, ?_⟩
        simpa using hswname
      | j + 1 =>
        have hj : j < rest.length := by
          simpa using Nat.lt_of_succ_lt_succ hi
        have e1 : 2 * (j + 1) = 2 * j + 1 + 1 := by omega
        rw [e1]
        simpa [List.getD_cons_succ] using h4 j hj

/-! ### Claim C5 -/

/-- Claim C5: for every camera object in the input scene, the Objects section
contains exactly one CameraSwitcher NodeAttribute record and exactly one
Camera NodeAttribute record, emitted adjacently with the switcher first (the
pair at positions `2i`, `2i+1` belongs to the `i`-th camera: the switcher's
`Name` child carries that camera data's name suffixed `" switcher"`), and
nothing else is emitted. -/
theorem claim_C5_camera_pairing (pyhash : String → ℤ) (sd : FBXData)
    (root : Elem) (st : UIDState String) (res : Elem) (st' : UIDState String)
    (h : fbx_objects_elements pyhash root sd st = .ok (res, st')) :
    ∃ O, res.elems = root.elems ++ [O] ∧ O.name = "Objects" ∧
      O.elems.length = 2 * sd.data_cameras.length ∧
      ∀ i, (hi : i < sd.data_cameras.length) →
        isCameraSwitcherRecord (O.elems.getD (2 * i) (elem_empty "")) = true ∧
        isCameraRecord (O.elems.getD (2 * i + 1) (elem_empty "")) = true ∧
        ((O.elems.getD (2 * i) (elem_empty "")).elems.getD 2
            (elem_empty "")).payload =
          [(.add_string_unicode,
            .scalar (.str ((sd.data_cameras.get ⟨i, hi⟩).1.data.name ++
              " switcher")))] := by
  unfold fbx_objects_elements at h
  obtain ⟨rf, hf, h⟩ := exbind_ok h
  simp only [Pure.pure, Except.pure] at h
  cases h
  obtain ⟨tail, h1, h2, h3, h4⟩ :=
    objects_fold_shape pyhash sd sd.data_cameras (elem_empty "Objects", st) rf hf
  simp only [elem_empty] at h1 h2
  refine ⟨rf.1, ?_, ?_, ?_, ?_⟩
  · cases root with
    | mk n p c => simp [Elem.appendChild]
  · simpa using h2
  · rw [h1]
    simpa using h3
  · intro i hi
    rw [h1]
    simpa using h4 i hi

/-- Witness for C5 on the single-camera scene. -/
theorem claim_C5_witness :
    ∃ res st' O,
      fbx_objects_elements lenHash (elem_empty "") sdOneCam ⟨[], ∅⟩ =
        .ok (res, st') ∧
      res.elems = [O] ∧ O.name = "Objects" ∧
      O.elems.length = 2 * sdOneCam.data_cameras.length := by
  cases hres : fbx_objects_elements lenHash (elem_empty "") sdOneCam ⟨[], ∅⟩ with
  | error e =>
    have hok : (fbx_objects_elements lenHash (elem_empty "") sdOneCam
        ⟨[], ∅⟩).toOption.isSome = true := by decide
    rw [hres] at hok
    cases hok
  | ok r =>
    obtain ⟨res, st'⟩ := r
    obtain ⟨O, h1, h2, h3, _⟩ :=
      claim_C5_camera_pairing lenHash sdOneCam (elem_empty "") ⟨[], ∅⟩ res st' hres
    exact ⟨res, st', O, rfl, by simpa using h1, h2, h3⟩

/-! ### Claim C3 -/

/-- Claim C3 (code bug, evaluated at the failing input): for the scene whose
only object is a single camera, the Definitions section declares a Model
template user count of 2 (the camera's Model plus its switcher's Model slot),
but the Objects section emits no `Model`-class record at all — its only
records are the two camera NodeAttribute blocks, because the source's mesh
and object emission loops are `pass` stubs.  The per-class Count declared in
Definitions therefore does not equal the number of records emitted in
Objects for the Model class (2 declared, 0 emitted). -/
theorem claim_C3_count_mismatch :
    (alookup sdOneCam.templates "Model").map FBXTemplate.nbr_users = some 2 ∧
    (fbx_objects_elements lenHash (elem_empty "") sdOneCam ⟨[], ∅⟩).map
      (fun r =>
        ((r.1.elems.headD (elem_empty "")).elems.countP
          (fun e => e.name == "Model"),
         (r.1.elems.headD (elem_empty "")).elems.map Elem.name)) =
      .ok (0, ["NodeAttribute", "NodeAttribute"]) := by
  decide

/-! ### Claim C4 -/

/-- Counterexample to C4 as originally stated: for the single-camera scene
the Definitions section declares a Model count of 2, not 1 — the source sets
the Model template's user count to `len(objects) + len(data_cameras)`
(one extra Model slot per camera switcher).  The fourth child of the
generated Definitions element is the block generated from the Model template
(after Version, Count and the GlobalSettings block), and its own Count child
carries 2. -/
theorem claim_C4_counterexample :
    (alookup sdOneCam.templates "Model").map FBXTemplate.nbr_users = some 2 ∧
    (fbx_definitions_elements (elem_empty "") sdOneCam).map
      (fun r =>
        (((r.elems.headD (elem_empty "")).elems.getD 3
          (elem_empty "")).elems.headD (elem_empty "")).payload) =
      .ok [(.add_int32, pI 2)] ∧
    (2 : ℤ) ≠ 1 := by
  refine ⟨by decide, by decide, by decide⟩

/-- Claim C4 (amended): for the single-camera scene (36mm x 24mm sensor,
camera at the origin), the Definitions section declares — per generated
template block, in order GlobalSettings, Model, NodeAttribute::Camera,
NodeAttribute::CameraSwitcher — the Counts 1, 2, 1 and 1 (Model count 2, not
1 as originally claimed), and the Objects section contains exactly the
CameraSwitcher record followed by the Camera record, whose `FilmWidth`
property value is 36mm converted to inches, approximately 1.4173. -/
theorem claim_C4_single_camera_scene :
    (fbx_definitions_elements (elem_empty "") sdOneCam).map
      (fun r =>
        (r.elems.headD (elem_empty "")).elems.map fun b =>
          (b.elems.headD (elem_empty "")).payload) =
      .ok [[], [], [(.add_int32, pI 1)], [(.add_int32, pI 2)],
           [(.add_int32, pI 1)], [(.add_int32, pI 1)]] ∧
    (fbx_objects_elements lenHash (elem_empty "") sdOneCam ⟨[], ∅⟩).map
      (fun r => (r.1.elems.headD (elem_empty "")).elems.map
        (fun e => (isCameraSwitcherRecord e, isCameraRecord e))) =
      .ok [(true, false), (false, true)] ∧
    ∃ q,
      (fbx_objects_elements lenHash (elem_empty "") sdOneCam ⟨[], ∅⟩).map
        (fun r =>
          ((((r.1.elems.getD 0 (elem_empty "")).elems.getD 1
            (elem_empty "")).elems.headD (elem_empty "")).elems.getD 5
            (elem_empty "")).payload) =
        .ok [(.add_string, .scalar (.bytes "FilmWidth")),
             (.add_string, .scalar (.bytes "double")),
             (.add_string, .scalar (.bytes "Number")),
             (.add_string, .scalar (.bytes "")),
             (.add_float64, pF q)] ∧
      (units_convert camDataA.sensor_width "millimeter" "inch") = some q ∧
      |q.toRat - 1.4173| < 1 / 10000 := by
  refine ⟨by decide, by decide, ⟨360000000, 254000000⟩, by decide, by decide, ?_⟩
  rw [abs_sub_lt_iff]
  constructor <;> norm_num [PyFloat.toRat]

/-! ### Section-writer shape facts -/

theorem map_name_appendChild (root c : Elem) :
    (root.appendChild c).elems.map Elem.name =
      root.elems.map Elem.name ++ [c.name] := by
  cases root with
  | mk n p cs => simp [Elem.appendChild]

/-- The header writer appends exactly the five top-level elements
`FBXHeaderExtension`, `FileId`, `CreationTime`, `Creator`, `GlobalSettings`. -/
theorem fbx_header_elements_names {root : Elem} {vs : String} {t : PyDateTime}
    {r : Elem} (h : fbx_header_elements root vs t = .ok r) :
    r.elems.map Elem.name = root.elems.map Elem.name ++
      ["FBXHeaderExtension", "FileId", "CreationTime", "Creator",
       "GlobalSettings"] := by
  unfold fbx_header_elements at h
  obtain ⟨q1, h1, h⟩ := exbind_ok h
  obtain ⟨q2, h2, h⟩ := exbind_ok h
  obtain ⟨q3, h3, h⟩ := exbind_ok h
  obtain ⟨q4, h4, h⟩ := exbind_ok h
  obtain ⟨q5, h5, h⟩ := exbind_ok h
  obtain ⟨q6, h6, h⟩ := exbind_ok h
  obtain ⟨q7, h7, h⟩ := exbind_ok h
  obtain ⟨q8, h8, h⟩ := exbind_ok h
  obtain ⟨q9, h9, h⟩ := exbind_ok h
  obtain ⟨q10, h10, h⟩ := exbind_ok h
  obtain ⟨q11, h11, h⟩ := exbind_ok h
  obtain ⟨q12, h12, h⟩ := exbind_ok h
  simp only [Pure.pure, Except.pure] at h
  cases h
  cases root with
  | mk n p cs =>
    simp [Elem.appendChild, elem_data_single_bytes,
      elem_data_single_string_unicode, elem_data_single]

/-- The documents writer appends exactly the `Documents` element. -/
theorem fbx_documents_elements_names {pyhash : String → ℤ} {root : Elem}
    {name : String} {st : UIDState String} {r : Elem} {st' : UIDState String}
    (h : fbx_documents_elements pyhash root name st = .ok (r, st')) :
    r.elems.map Elem.name = root.elems.map Elem.name ++ ["Documents"] := by
  unfold fbx_documents_elements at h
  obtain ⟨q1, h1, h⟩ := exbind_ok h
  obtain ⟨q2, h2, h⟩ := exbind_ok h
  obtain ⟨q3, h3, h⟩ := exbind_ok h
  simp only [Pure.pure, Except.pure] at h
  cases h
  cases root with
  | mk n p cs => simp [Elem.appendChild]

/-- The references writer appends exactly the `References` element. -/
theorem fbx_references_elements_names (root : Elem) :
    (fbx_references_elements root).elems.map Elem.name =
      root.elems.map Elem.name ++ ["References"] := by
  cases root with
  | mk n p cs => simp [fbx_references_elements, Elem.appendChild, elem_empty]

/-- Generating one template block preserves the receiving element's name. -/
theorem fbx_template_generate_name {root : Elem} {t : FBXTemplate} {r : Elem}
    (h : fbx_template_generate root t = .ok r) : r.name = root.name := by
  unfold fbx_template_generate at h
  by_cases he : t.properties.isEmpty
  · simp only [he, if_true, Pure.pure, Except.pure] at h
    cases h
    cases root with
    | mk n p cs => rfl
  · simp only [he, if_false, Bind.bind, Except.bind] at h
    cases hp : List.foldlM
        (fun pr (nv : String × (PyVal × String)) =>
          elem_props_set pr nv.2.2 nv.1 nv.2.1)
        (elem_empty "Properties70") t.properties with
    | error e => rw [hp] at h; cases h
    | ok props =>
      rw [hp] at h
      simp only [Pure.pure, Except.pure] at h
      cases h
      cases root with
      | mk n p cs => rfl

/-- Folding template generation preserves the receiving element's name. -/
theorem defs_fold_name (ts : List (String × FBXTemplate)) :
    ∀ (acc r : Elem),
      List.foldlM (fun a (p : String × FBXTemplate) =>
        fbx_template_generate a p.2) acc ts = .ok r →
      r.name = acc.name := by
  induction ts with
  | nil =>
    intro acc r h
    simp only [List.foldlM_nil, Pure.pure, Except.pure] at h
    cases h
    rfl
  | cons tpl rest ih =>
    intro acc r h
    simp only [List.foldlM_cons] at h
    obtain ⟨a1, hgen, h⟩ := exbind_ok h
    rw [ih a1 r h, fbx_template_generate_name hgen]

/-- The definitions writer appends exactly the `Definitions` element. -/
theorem fbx_definitions_elements_names {root : Elem} {sd : FBXData} {r : Elem}
    (h : fbx_definitions_elements root sd = .ok r) :
    r.elems.map Elem.name = root.elems.map Elem.name ++ ["Definitions"] := by
  unfold fbx_definitions_elements at h
  obtain ⟨defs, hdefs, h⟩ := exbind_ok h
  simp only [Pure.pure, Except.pure] at h
  cases h
  rw [map_name_appendChild, defs_fold_name _ _ _ hdefs]
  rfl

/-- The objects writer appends exactly the `Objects` element. -/
theorem fbx_objects_elements_names {pyhash : String → ℤ} {root : Elem}
    {sd : FBXData} {st : UIDState String} {r : Elem} {st' : UIDState String}
    (h : fbx_objects_elements pyhash root sd st = .ok (r, st')) :
    r.elems.map Elem.name = root.elems.map Elem.name ++ ["Objects"] := by
  unfold fbx_objects_elements at h
  obtain ⟨rf, hf, h⟩ := exbind_ok h
  simp only [Pure.pure, Except.pure] at h
  cases h
  obtain ⟨tail, _, h2, _, _⟩ :=
    objects_fold_shape pyhash sd sd.data_cameras (elem_empty "Objects", st) rf hf
  rw [map_name_appendChild, h2]
  rfl

/-- The connections writer appends exactly the `Connections` element. -/
theorem fbx_connections_elements_names (root : Elem) :
    (fbx_connections_elements root).elems.map Elem.name =
      root.elems.map Elem.name ++ ["Connections"] := by
  cases root with
  | mk n p cs => simp [fbx_connections_elements, Elem.appendChild, elem_empty]

/-- The takes writer appends exactly the `Takes` element. -/
theorem fbx_takes_elements_names (root : Elem) :
    (fbx_takes_elements root).elems.map Elem.name =
      root.elems.map Elem.name ++ ["Takes"] := by
  cases root with
  | mk n p cs => simp [fbx_takes_elements, Elem.appendChild, elem_empty]

/-! ### Claim C8 -/

/-- Counterexample to C8 as originally stated: the Header section writer
appends five top-level children to the document root (`FBXHeaderExtension`,
`FileId`, `CreationTime`, `Creator`, `GlobalSettings`), not exactly one. -/
theorem claim_C8_counterexample :
    (fbx_header_elements (elem_empty "") "2.69" ⟨2013, 11, 21, 12, 0, 0, 0⟩).map
      (fun r => r.elems.map Elem.name) =
      .ok ["FBXHeaderExtension", "FileId", "CreationTime", "Creator",
           "GlobalSettings"] ∧
    (5 : ℕ) ≠ 1 := by
  decide

/-- Claim C8 (amended): run in the fixed order Header, Documents, References,
Definitions, Objects, Connections, Takes, the section writers produce exactly
the top-level children `FBXHeaderExtension`, `FileId`, `CreationTime`,
`Creator`, `GlobalSettings`, `Documents`, `References`, `Definitions`,
`Objects`, `Connections`, `Takes`, in that order: the Header writer appends
five top-level children and every other writer appends exactly one. -/
theorem claim_C8_section_order (pyhash : String → ℤ) (scene : BScene)
    (gs : PyFloat) (vs : String) (t : PyDateTime) (root' : Elem)
    (h : save_single_tree pyhash scene gs vs t = .ok root') :
    root'.elems.map Elem.name =
      ["FBXHeaderExtension", "FileId", "CreationTime", "Creator",
       "GlobalSettings", "Documents", "References", "Definitions", "Objects",
       "Connections", "Takes"] := by
  unfold save_single_tree at h
  obtain ⟨r1, hH, h⟩ := exbind_ok h
  obtain ⟨r2, hD, h⟩ := exbind_ok h
  obtain ⟨r3, hDef, h⟩ := exbind_ok h
  obtain ⟨r4, hO, h⟩ := exbind_ok h
  simp only [Pure.pure, Except.pure] at h
  cases h
  obtain ⟨u2, s2⟩ := r2
  obtain ⟨u4, s4⟩ := r4
  rw [fbx_takes_elements_names, fbx_connections_elements_names,
    fbx_objects_elements_names hO, fbx_definitions_elements_names hDef,
    fbx_references_elements_names, fbx_documents_elements_names hD,
    fbx_header_elements_names hH]
  rfl

/-- Witness for C8 on the empty scene. -/
theorem claim_C8_witness :
    (save_single_tree lenHash sceneEmpty 1.0 "2.69"
        ⟨2013, 11, 21, 12, 0, 0, 0⟩).map
      (fun r => r.elems.map Elem.name) =
      .ok ["FBXHeaderExtension", "FileId", "CreationTime", "Creator",
           "GlobalSettings", "Documents", "References", "Definitions",
           "Objects", "Connections", "Takes"] := by
  cases hres : save_single_tree lenHash sceneEmpty 1.0 "2.69"
      ⟨2013, 11, 21, 12, 0, 0, 0⟩ with
  | error e =>
    have hok : (save_single_tree lenHash sceneEmpty 1.0 "2.69"
        ⟨2013, 11, 21, 12, 0, 0, 0⟩).toOption.isSome = true := by decide
    rw [hres] at hok
    cases hok
  | ok r =>
    simp only [Except.map]
    rw [claim_C8_section_order lenHash sceneEmpty 1.0 "2.69"
      ⟨2013, 11, 21, 12, 0, 0, 0⟩ r hres]
